import Mathlib

/-!
# SOCKS5 server handshake (`protocol/socks5/listener.go`)

A shallow embedding of `HandleConnection` / `handleConnection`.  The function
is straight-line code over external collaborators (the wire codec, the
authenticator, the downstream handler, the operating system's UDP sockets).
Each collaborator call is embedded as an operation that appends an event to
the trace of the run and yields the outcome the environment `Env` gives for
that call site.  The function has no loop, so every call site is executed at
most once in a run and an environment is determined by one outcome per site.
-/

namespace Socks5

/-! ## Values -/

/-- A Go `error` value that is not nil: either an error produced by a
collaborator, or a cause wrapper built by `E.Cause`. -/
inductive Error where
  | raw (message : String)
  | caused (cause : Error) (message : String)
  deriving DecidableEq, Repr

/-- Modelled from the spec: `E.Cause(err, message)` of `common/exceptions`
(not in this file) returns "a wrapped error identifying the failing step":
an error holding the message and the wrapped cause. -/
def E.Cause (cause : Error) (message : String) : Error :=
  Error.caused cause message

/-- Modelled from the spec: `common.Error(_, err)` of package `common` drops
the value of a `(value, error)` pair and keeps the error, so that the result
of the drain is the error of `io.Copy`. -/
def common.Error (r : Nat × Option Error) : Option Error :=
  r.2

/-- Modelled from the spec: `common.Contains(arr, target)` of package `common`
tells whether the offered method set contains the target, by a linear scan. -/
def common.Contains : List Nat → Nat → Bool
  | [], _ => false
  | x :: xs, target => if target = x then true else common.Contains xs target

/-- Go's `netip.Addr`: the zero value, an IPv4 address, or an IPv6 address
(IPv4-mapped addresses included) with its zone. -/
inductive Addr where
  | zero
  | ip4 (bits : Nat)
  | ip6 (bits : Nat) (zone : String)
  deriving DecidableEq, Repr

/-- Go's `netip.Addr.Is4`: true exactly for IPv4 addresses. -/
def Addr.Is4 : Addr → Bool
  | Addr.ip4 _ => true
  | _ => false

/-- Go's `netip.AddrPort`. -/
structure AddrPort where
  addr : Addr
  port : Nat
  deriving DecidableEq, Repr

/-- Go's `netip.AddrPortFrom`. -/
def netip.AddrPortFrom (ip : Addr) (port : Nat) : AddrPort :=
  { addr := ip, port := port }

/-- Go's `net.UDPAddr` (IP and zone kept together as an `Addr`). -/
structure UDPAddr where
  IP : Addr
  Port : Nat
  deriving DecidableEq, Repr

/-- Go's `net.UDPAddrFromAddrPort`. -/
def net.UDPAddrFromAddrPort (ap : AddrPort) : UDPAddr :=
  { IP := ap.addr, Port := ap.port }

/-- Go's `net.Addr` as returned by `LocalAddr()`. -/
structure NetAddr where
  IP : Addr
  Port : Nat
  deriving DecidableEq, Repr

/-- Modelled from the spec: `M.Socksaddr` of `common/metadata`, a
"destination address (host+port, address-family-agnostic)". -/
structure Socksaddr where
  Addr : Addr
  Fqdn : String
  Port : Nat
  deriving DecidableEq, Repr

/-- The zero value of `M.Socksaddr` (a struct field left out of a Go
composite literal). -/
def Socksaddr.zeroValue : Socksaddr :=
  { Addr := Addr.zero, Fqdn := "", Port := 0 }

/-- Modelled from the spec: `M.Metadata` of `common/metadata`, the
ConnectionMetadata "carrying protocol tag, negotiated destination, and any
additional session context required by the downstream handler". It is passed
to `handleConnection` by value. -/
structure Metadata where
  Protocol : String
  Destination : Socksaddr
  Session : List Nat
  deriving DecidableEq, Repr

/-- Go's `context.Context`, threaded through to the handler. -/
structure Context where
  id : Nat
  deriving DecidableEq, Repr

/-- The controlling stream (`net.Conn`): its identity and its local address. -/
structure Conn where
  id : Nat
  LocalAddr : NetAddr
  deriving DecidableEq, Repr

/-- The relay socket (`*net.UDPConn`): its identity and its local address. -/
structure UDPConn where
  id : Nat
  LocalAddr : NetAddr
  deriving DecidableEq, Repr

/-- Modelled from the spec: the AuthRequest of `protocol.go`, "protocol
version, set of client-offered authentication method identifiers". -/
structure AuthRequest where
  Version : Nat
  Methods : List Nat
  deriving DecidableEq, Repr

/-- Modelled from the spec: the AuthResponse of `protocol.go`, "protocol
version, chosen method identifier". -/
structure AuthResponse where
  Version : Nat
  Method : Nat
  deriving DecidableEq, Repr

/-- Modelled from the spec: the UsernamePasswordAuthRequest of `protocol.go`,
the "credential pair in". -/
structure UsernamePasswordAuthRequest where
  Username : String
  Password : String
  deriving DecidableEq, Repr

/-- Modelled from the spec: the UsernamePasswordAuthResponse of `protocol.go`,
the "status out (success/failure)"; `handleConnection` sets no other field. -/
structure UsernamePasswordAuthResponse where
  Status : Nat
  deriving DecidableEq, Repr

/-- Modelled from the spec: the CommandRequest of `protocol.go`, "protocol
version, command kind, destination address". -/
structure Request where
  Version : Nat
  Command : Nat
  Destination : Socksaddr
  deriving DecidableEq, Repr

/-- Modelled from the spec: the CommandResponse of `protocol.go`, "protocol
version, reply code, bound address". -/
structure Response where
  Version : Nat
  ReplyCode : Nat
  Bind : Socksaddr
  deriving DecidableEq, Repr

/-- Modelled from the spec: the datagram channel built by
`NewAssociatePacketConn` (`packet.go`), "a channel wrapping {controlling
stream, relay socket, client-declared destination}". -/
structure AssociatePacketConn where
  conn : Conn
  udpConn : UDPConn
  destination : Socksaddr
  deriving DecidableEq, Repr

/-- Modelled from the spec: `NewAssociatePacketConn(conn, udpConn, destination)`
of `packet.go` wraps the three values it is given. -/
def NewAssociatePacketConn (conn : Conn) (udpConn : UDPConn) (destination : Socksaddr) :
    AssociatePacketConn :=
  { conn := conn, udpConn := udpConn, destination := destination }

/-! ## Protocol constants (`protocol.go`) -/

/-- Modelled from the spec: method identifier "0x00 = no-authentication-required". -/
def AuthTypeNotRequired : Nat := 0x00

/-- Modelled from the spec: method identifier "0x02 = username/password". -/
def AuthTypeUsernamePassword : Nat := 0x02

/-- Modelled from the spec: method identifier "0xFF = no-acceptable-methods". -/
def AuthTypeNoAcceptedMethods : Nat := 0xFF

/-- Modelled from the spec: the status byte of a UsernamePasswordAuthResponse,
"0 = success". -/
def UsernamePasswordStatusSuccess : Nat := 0x00

/-- Modelled from the spec: the failure status byte of a
UsernamePasswordAuthResponse. The spec fixes only "0 = success"; the value is
the one of the SOCKS5 sub-negotiation, and only its being different from the
success value is used. -/
def UsernamePasswordStatusFailure : Nat := 0x01

/-- Modelled from the spec: command kind CONNECT. The spec names the command
kinds without their bytes; the value is the one of the SOCKS5 protocol, and
only its being different from UDP-ASSOCIATE is used. -/
def CommandConnect : Nat := 0x01

/-- Modelled from the spec: command kind UDP-ASSOCIATE, with the byte of the
SOCKS5 protocol; only its being different from CONNECT is used. -/
def CommandUDPAssociate : Nat := 0x03

/-- Modelled from the spec: reply code success, with the byte of the SOCKS5
protocol. -/
def ReplyCodeSuccess : Nat := 0x00

/-- Modelled from the spec: the unsupported-command reply code, one of the
"distinguishable failure/unsupported codes", with the byte of the SOCKS5
protocol. -/
def ReplyCodeUnsupported : Nat := 0x07

/-! ## Collaborators, events and runs -/

/-- The authenticator of `common/auth`: its one capability `Verify`. A nil
authenticator is `none` of `Option Authenticator`. -/
structure Authenticator where
  Verify : String → String → Bool

/-- One collaborator call of a run, with its arguments and its outcome. -/
inductive Event where
  | ReadAuthRequest (conn : Conn) (res : Except Error AuthRequest)
  | WriteAuthResponse (conn : Conn) (response : AuthResponse) (err : Option Error)
  | ReadUsernamePasswordAuthRequest (conn : Conn) (res : Except Error UsernamePasswordAuthRequest)
  | Verify (username password : String) (ok : Bool)
  | WriteUsernamePasswordAuthResponse (conn : Conn) (response : UsernamePasswordAuthResponse)
      (err : Option Error)
  | ReadRequest (conn : Conn) (res : Except Error Request)
  | WriteResponse (conn : Conn) (response : Response) (err : Option Error)
  | ListenUDP (network : String) (laddr : UDPAddr) (res : Except Error UDPConn)
  | Close (udpConn : UDPConn)
  | NewConnection (ctx : Context) (conn : Conn) (metadata : Metadata) (err : Option Error)
  | Go
  | NewPacketConnection (ctx : Context) (packetConn : AssociatePacketConn) (metadata : Metadata)
      (err : Option Error)
  | HandleError (err : Error)
  | CopyDiscard (conn : Conn) (res : Nat × Option Error)

/-- The outcomes the collaborators give in one run, one per call site of
`HandleConnection` / `handleConnection`, and the address conversion of
`common/metadata`, which is not in this file. -/
structure Env where
  /-- Outcome of `ReadAuthRequest(conn)`, line 56. -/
  readAuthRequest : Except Error AuthRequest
  /-- Outcome of `ReadAuthRequest0(conn)`, line 64. -/
  readAuthRequest0 : Except Error AuthRequest
  /-- Outcome of `WriteAuthResponse` of the no-acceptable-methods response, line 79. -/
  writeNoAcceptedMethods : Option Error
  /-- Outcome of `WriteAuthResponse` of the chosen method, line 87. -/
  writeAuthResponse : Option Error
  /-- Outcome of `ReadUsernamePasswordAuthRequest(conn)`, line 96. -/
  readUsernamePasswordAuthRequest : Except Error UsernamePasswordAuthRequest
  /-- Outcome of `WriteUsernamePasswordAuthResponse`, line 106. -/
  writeUsernamePasswordAuthResponse : Option Error
  /-- Outcome of `ReadRequest(conn)`, line 112. -/
  readRequest : Except Error Request
  /-- Outcome of `WriteResponse`, lines 118, 139, 157 (one of them per run). -/
  writeResponse : Option Error
  /-- Outcome of `net.ListenUDP`, line 134. -/
  listenUDP : Except Error UDPConn
  /-- Outcome of `handler.NewConnection`, line 128. -/
  newConnection : Option Error
  /-- Outcome of `handler.NewPacketConnection`, line 150. -/
  newPacketConnection : Option Error
  /-- Outcome of `io.Copy(io.Discard, conn)`, line 155: bytes discarded and error. -/
  copyDiscard : Nat × Option Error
  /-- The conversion `M.SocksaddrFromNet` of `common/metadata`. -/
  SocksaddrFromNet : NetAddr → Socksaddr

/-- What a run has done so far: the calls of the function itself in order, and
the calls of the goroutine it started (line 149) in their own order. -/
structure World where
  trace : List Event
  spawned : List Event

/-- A Go function body: started in a world, it yields a value and the world
extended by the calls it made. -/
def Proc (α : Type) : Type := World → α × World

/-- Sequencing of Go statements: the second runs in the world left by the
first. -/
instance : Monad Proc where
  pure a := fun w => (a, w)
  bind x f := fun w => f (x w).1 (x w).2

/-- Record a call made by the function itself. -/
def emit (e : Event) : Proc Unit :=
  fun w => ((), { w with trace := w.trace ++ [e] })

/-- The statement `go task()`: the goroutine is started, and what it does is
recorded apart from the calls of the function that started it. -/
def go (task : Proc Unit) : Proc Unit :=
  fun w =>
    ((), { trace := w.trace ++ [Event.Go]
           spawned := w.spawned ++ (task { trace := [], spawned := [] }).2.trace })

/-! ## The collaborator calls -/

/-- The codec call `ReadAuthRequest` (`protocol.go`, a parameter here): it is
recorded and yields what the environment gives. -/
def ReadAuthRequest (env : Env) (conn : Conn) : Proc (Except Error AuthRequest) := do
  emit (Event.ReadAuthRequest conn env.readAuthRequest)
  return env.readAuthRequest

/-- The codec call `ReadAuthRequest0`, the variant of `ReadAuthRequest` used by
`HandleConnection0`. -/
def ReadAuthRequest0 (env : Env) (conn : Conn) : Proc (Except Error AuthRequest) := do
  emit (Event.ReadAuthRequest conn env.readAuthRequest0)
  return env.readAuthRequest0

/-- The codec call `WriteAuthResponse`; `outcome` is what the environment gives
at the call site. -/
def WriteAuthResponse (outcome : Option Error) (conn : Conn) (response : AuthResponse) :
    Proc (Option Error) := do
  emit (Event.WriteAuthResponse conn response outcome)
  return outcome

/-- The codec call `ReadUsernamePasswordAuthRequest`. -/
def ReadUsernamePasswordAuthRequest (env : Env) (conn : Conn) :
    Proc (Except Error UsernamePasswordAuthRequest) := do
  emit (Event.ReadUsernamePasswordAuthRequest conn env.readUsernamePasswordAuthRequest)
  return env.readUsernamePasswordAuthRequest

/-- The call `authenticator.Verify(username, password)`, recorded with its
result. -/
def Authenticator.verify (a : Authenticator) (username password : String) : Proc Bool := do
  emit (Event.Verify username password (a.Verify username password))
  return a.Verify username password

/-- The codec call `WriteUsernamePasswordAuthResponse`. -/
def WriteUsernamePasswordAuthResponse (env : Env) (conn : Conn)
    (response : UsernamePasswordAuthResponse) : Proc (Option Error) := do
  emit (Event.WriteUsernamePasswordAuthResponse conn response env.writeUsernamePasswordAuthResponse)
  return env.writeUsernamePasswordAuthResponse

/-- The codec call `ReadRequest`. -/
def ReadRequest (env : Env) (conn : Conn) : Proc (Except Error Request) := do
  emit (Event.ReadRequest conn env.readRequest)
  return env.readRequest

/-- The codec call `WriteResponse`. -/
def WriteResponse (env : Env) (conn : Conn) (response : Response) : Proc (Option Error) := do
  emit (Event.WriteResponse conn response env.writeResponse)
  return env.writeResponse

/-- Go's `net.ListenUDP(network, laddr)`. -/
def net.ListenUDP (env : Env) (network : String) (laddr : UDPAddr) :
    Proc (Except Error UDPConn) := do
  emit (Event.ListenUDP network laddr env.listenUDP)
  return env.listenUDP

/-- The call `udpConn.Close()`. -/
def UDPConn.Close (udpConn : UDPConn) : Proc Unit :=
  emit (Event.Close udpConn)

/-- The handler's stream hand-off `NewConnection(ctx, conn, metadata)`. -/
def Handler.NewConnection (env : Env) (ctx : Context) (conn : Conn) (metadata : Metadata) :
    Proc (Option Error) := do
  emit (Event.NewConnection ctx conn metadata env.newConnection)
  return env.newConnection

/-- The handler's datagram-channel hand-off
`NewPacketConnection(ctx, packetConn, metadata)`. -/
def Handler.NewPacketConnection (env : Env) (ctx : Context) (packetConn : AssociatePacketConn)
    (metadata : Metadata) : Proc (Option Error) := do
  emit (Event.NewPacketConnection ctx packetConn metadata env.newPacketConnection)
  return env.newPacketConnection

/-- The handler's error sink `HandleError(err)`. -/
def Handler.HandleError (err : Error) : Proc Unit :=
  emit (Event.HandleError err)

/-- The drain `io.Copy(io.Discard, conn)`: bytes discarded and error. -/
def io.CopyDiscard (env : Env) (conn : Conn) : Proc (Nat × Option Error) := do
  emit (Event.CopyDiscard conn env.copyDiscard)
  return env.copyDiscard

/-! ## `handleConnection` -/

/-- The goroutine of lines 149-154. -/
def associateTask (env : Env) (ctx : Context) (conn : Conn) (udpConn : UDPConn)
    (request : Request) (metadata : Metadata) : Proc Unit := do
  let err ← Handler.NewPacketConnection env ctx
    (NewAssociatePacketConn conn udpConn request.Destination) metadata
  if let some err := err then
    Handler.HandleError err

/-- How a call of a Go function ends: it returns its `error` result (`none`
for nil), or it panics. -/
inductive Outcome where
  | returned (err : Option Error)
  | panicked (reason : String)
  deriving DecidableEq, Repr

/-- Lines 71-166. -/
def handleConnection (env : Env) (authRequest : AuthRequest) (ctx : Context) (conn : Conn)
    (authenticator : Option Authenticator) (bind : Addr) (metadata : Metadata) :
    Proc Outcome := do
  let authMethod : Nat :=
    if authenticator.isNone then AuthTypeNotRequired else AuthTypeUsernamePassword
  if !common.Contains authRequest.Methods authMethod then
    let err ← WriteAuthResponse env.writeNoAcceptedMethods conn
      { Version := authRequest.Version, Method := AuthTypeNoAcceptedMethods }
    if let some err := err then
      return Outcome.returned (some (E.Cause err "write socks auth response"))
  let err ← WriteAuthResponse env.writeAuthResponse conn
    { Version := authRequest.Version, Method := authMethod }
  if let some err := err then
    return Outcome.returned (some (E.Cause err "write socks auth response"))

  if authMethod = AuthTypeUsernamePassword then
    let usernamePasswordAuthRequest ←
      match ← ReadUsernamePasswordAuthRequest env conn with
      | Except.error err => return Outcome.returned (some (E.Cause err "read user auth request"))
      | Except.ok r => pure r
    let mut response : UsernamePasswordAuthResponse := { Status := 0 }
    -- `authenticator.Verify(...)` (line 101): a method call on a nil interface panics.
    let verified ←
      match authenticator with
      | none => return Outcome.panicked "invalid memory address or nil pointer dereference"
      | some a => a.verify usernamePasswordAuthRequest.Username usernamePasswordAuthRequest.Password
    if verified then
      response := { response with Status := UsernamePasswordStatusSuccess }
    else
      response := { response with Status := UsernamePasswordStatusFailure }
    let err ← WriteUsernamePasswordAuthResponse env conn response
    if let some err := err then
      return Outcome.returned (some (E.Cause err "write user auth response"))

  let request ←
    match ← ReadRequest env conn with
    | Except.error err => return Outcome.returned (some (E.Cause err "read socks request"))
    | Except.ok r => pure r
  if request.Command = CommandConnect then
    let err ← WriteResponse env conn
      { Version := request.Version
        ReplyCode := ReplyCodeSuccess
        Bind := env.SocksaddrFromNet conn.LocalAddr }
    if let some err := err then
      return Outcome.returned (some (E.Cause err "write socks response"))
    let mut metadata := metadata
    metadata := { metadata with Protocol := "socks" }
    metadata := { metadata with Destination := request.Destination }
    return Outcome.returned (← Handler.NewConnection env ctx conn metadata)
  else if request.Command = CommandUDPAssociate then
    let mut network := "udp"
    if bind.Is4 then
      network := "udp4"
    let udpConn ←
      match ← net.ListenUDP env network (net.UDPAddrFromAddrPort (netip.AddrPortFrom bind 0)) with
      | Except.error err => return Outcome.returned (some err)
      | Except.ok c => pure c
    -- `defer udpConn.Close()` (line 138): it runs when the function returns,
    -- that is after the rest of this branch, which always returns.
    let result ← (do
      let err ← WriteResponse env conn
        { Version := request.Version
          ReplyCode := ReplyCodeSuccess
          Bind := env.SocksaddrFromNet udpConn.LocalAddr }
      if let some err := err then
        return Outcome.returned (some (E.Cause err "write socks response"))
      let mut metadata := metadata
      metadata := { metadata with Protocol := "socks" }
      metadata := { metadata with Destination := request.Destination }
      go (associateTask env ctx conn udpConn request metadata)
      return Outcome.returned (common.Error (← io.CopyDiscard env conn)) : Proc Outcome)
    udpConn.Close
    return result
  else
    let err ← WriteResponse env conn
      { Version := request.Version
        ReplyCode := ReplyCodeUnsupported
        Bind := Socksaddr.zeroValue }
    if let some err := err then
      return Outcome.returned (some (E.Cause err "write response"))
  return Outcome.returned none

/-- Lines 55-61. -/
def HandleConnection (env : Env) (ctx : Context) (conn : Conn)
    (authenticator : Option Authenticator) (bind : Addr) (metadata : Metadata) :
    Proc Outcome := do
  match ← ReadAuthRequest env conn with
  | Except.error err => return Outcome.returned (some (E.Cause err "read socks auth request"))
  | Except.ok authRequest =>
    handleConnection env authRequest ctx conn authenticator bind metadata

/-- Lines 63-69. -/
def HandleConnection0 (env : Env) (ctx : Context) (conn : Conn)
    (authenticator : Option Authenticator) (bind : Addr) (metadata : Metadata) :
    Proc Outcome := do
  match ← ReadAuthRequest0 env conn with
  | Except.error err => return Outcome.returned (some (E.Cause err "read socks auth request"))
  | Except.ok authRequest =>
    handleConnection env authRequest ctx conn authenticator bind metadata

/-- A complete run of a function body from the start: how it ended, and the
calls made. -/
structure Run where
  outcome : Outcome
  trace : List Event
  spawned : List Event

/-- Run a function body in a world where nothing has happened yet. -/
def Proc.exec (p : Proc Outcome) : Run :=
  let r := p { trace := [], spawned := [] }
  { outcome := r.1, trace := r.2.trace, spawned := r.2.spawned }

/-! ## The function in two parts

`commandPhase` is the second half of the body of `handleConnection`,
`handleConnection_eq` states that the function is its first half followed by
`commandPhase`. -/

/-- Lines 112-166 of `handleConnection`: the command exchange. -/
def commandPhase (env : Env) (ctx : Context) (conn : Conn) (bind : Addr) (metadata : Metadata) :
    Proc Outcome := do
  let request ←
    match ← ReadRequest env conn with
    | Except.error err => return Outcome.returned (some (E.Cause err "read socks request"))
    | Except.ok r => pure r
  if request.Command = CommandConnect then
    let err ← WriteResponse env conn
      { Version := request.Version
        ReplyCode := ReplyCodeSuccess
        Bind := env.SocksaddrFromNet conn.LocalAddr }
    if let some err := err then
      return Outcome.returned (some (E.Cause err "write socks response"))
    let mut metadata := metadata
    metadata := { metadata with Protocol := "socks" }
    metadata := { metadata with Destination := request.Destination }
    return Outcome.returned (← Handler.NewConnection env ctx conn metadata)
  else if request.Command = CommandUDPAssociate then
    let mut network := "udp"
    if bind.Is4 then
      network := "udp4"
    let udpConn ←
      match ← net.ListenUDP env network (net.UDPAddrFromAddrPort (netip.AddrPortFrom bind 0)) with
      | Except.error err => return Outcome.returned (some err)
      | Except.ok c => pure c
    let result ← (do
      let err ← WriteResponse env conn
        { Version := request.Version
          ReplyCode := ReplyCodeSuccess
          Bind := env.SocksaddrFromNet udpConn.LocalAddr }
      if let some err := err then
        return Outcome.returned (some (E.Cause err "write socks response"))
      let mut metadata := metadata
      metadata := { metadata with Protocol := "socks" }
      metadata := { metadata with Destination := request.Destination }
      go (associateTask env ctx conn udpConn request metadata)
      return Outcome.returned (common.Error (← io.CopyDiscard env conn)) : Proc Outcome)
    udpConn.Close
    return result
  else
    let err ← WriteResponse env conn
      { Version := request.Version
        ReplyCode := ReplyCodeUnsupported
        Bind := Socksaddr.zeroValue }
    if let some err := err then
      return Outcome.returned (some (E.Cause err "write response"))
  return Outcome.returned none


/-! ## The runs of `handleConnection` in closed form

The events of a run, written out path by path.  `handleConnection_exec` below
proves that the function produces exactly these runs; the properties of the
handshake are then read off the lists. -/

/-- The required method, lines 72-77. -/
def requiredMethod (authenticator : Option Authenticator) : Nat :=
  if authenticator.isNone then AuthTypeNotRequired else AuthTypeUsernamePassword

/-- A stretch of a run: the calls made in it, and the outcome if the function
ended in it. -/
structure Seg where
  events : List Event
  stop : Option Outcome

/-- One stretch after another: the second one only happens if the function did
not end in the first. -/
def Seg.andThen (s₁ s₂ : Seg) : Seg :=
  match s₁.stop with
  | some _ => s₁
  | none => { events := s₁.events ++ s₂.events, stop := s₂.stop }

/-- A stretch followed by the rest of the run. -/
def Seg.finish (s : Seg) (r : Run) : Run :=
  match s.stop with
  | some o => { outcome := o, trace := s.events, spawned := [] }
  | none => { outcome := r.outcome, trace := s.events ++ r.trace, spawned := r.spawned }

/-- The outcome of a failed codec call: the function returns the wrapped error. -/
def abortWith (err : Option Error) (message : String) : Option Outcome :=
  err.map fun e => Outcome.returned (some (E.Cause e message))

/-- Lines 78-86: the no-acceptable-methods response. -/
def rejectSeg (env : Env) (authRequest : AuthRequest) (conn : Conn)
    (authenticator : Option Authenticator) : Seg :=
  if common.Contains authRequest.Methods (requiredMethod authenticator) then
    { events := [], stop := none }
  else
    { events := [Event.WriteAuthResponse conn
        { Version := authRequest.Version, Method := AuthTypeNoAcceptedMethods }
        env.writeNoAcceptedMethods]
      stop := abortWith env.writeNoAcceptedMethods "write socks auth response" }

/-- Lines 87-93: the response with the required method. -/
def chooseSeg (env : Env) (authRequest : AuthRequest) (conn : Conn)
    (authenticator : Option Authenticator) : Seg :=
  { events := [Event.WriteAuthResponse conn
      { Version := authRequest.Version, Method := requiredMethod authenticator }
      env.writeAuthResponse]
    stop := abortWith env.writeAuthResponse "write socks auth response" }

/-- The status byte for the result of `Verify`, lines 101-105. -/
def statusOf (verified : Bool) : Nat :=
  if verified then UsernamePasswordStatusSuccess else UsernamePasswordStatusFailure

/-- Lines 95-110: the username/password sub-negotiation. -/
def userPassSeg (env : Env) (conn : Conn) (authenticator : Option Authenticator) : Seg :=
  match authenticator with
  | none => { events := [], stop := none }
  | some a =>
    match env.readUsernamePasswordAuthRequest with
    | Except.error e =>
      { events := [Event.ReadUsernamePasswordAuthRequest conn (Except.error e)]
        stop := some (Outcome.returned (some (E.Cause e "read user auth request"))) }
    | Except.ok r =>
      { events :=
          [Event.ReadUsernamePasswordAuthRequest conn (Except.ok r),
           Event.Verify r.Username r.Password (a.Verify r.Username r.Password),
           Event.WriteUsernamePasswordAuthResponse conn
             { Status := statusOf (a.Verify r.Username r.Password) }
             env.writeUsernamePasswordAuthResponse]
        stop := abortWith env.writeUsernamePasswordAuthResponse "write user auth response" }

/-- Lines 72-110: the whole negotiation. -/
def authSeg (env : Env) (authRequest : AuthRequest) (conn : Conn)
    (authenticator : Option Authenticator) : Seg :=
  (rejectSeg env authRequest conn authenticator).andThen
    ((chooseSeg env authRequest conn authenticator).andThen (userPassSeg env conn authenticator))

/-- The metadata handed to the handler, lines 126-127 and 147-148. -/
def handedOff (metadata : Metadata) (request : Request) : Metadata :=
  { metadata with Protocol := "socks", Destination := request.Destination }

/-- The network of the relay socket, lines 130-133. -/
def relayNetwork (bind : Addr) : String :=
  if bind.Is4 then "udp4" else "udp"

/-- The `net.ListenUDP` call of line 134. -/
def listenEvent (env : Env) (bind : Addr) : Event :=
  Event.ListenUDP (relayNetwork bind) { IP := bind, Port := 0 } env.listenUDP

/-- What the goroutine of lines 149-154 does. -/
def associateEvents (env : Env) (ctx : Context) (conn : Conn) (udpConn : UDPConn)
    (request : Request) (metadata : Metadata) : List Event :=
  Event.NewPacketConnection ctx (NewAssociatePacketConn conn udpConn request.Destination)
      (handedOff metadata request) env.newPacketConnection ::
    (match env.newPacketConnection with
     | some e => [Event.HandleError e]
     | none => [])

/-- Lines 116-165: the dispatch on the command of a request that was read. -/
def dispatchRun (env : Env) (ctx : Context) (conn : Conn) (bind : Addr) (metadata : Metadata)
    (request : Request) : Run :=
  if request.Command = CommandConnect then
    let response : Response :=
      { Version := request.Version, ReplyCode := ReplyCodeSuccess,
        Bind := env.SocksaddrFromNet conn.LocalAddr }
    match env.writeResponse with
    | some e =>
      { outcome := Outcome.returned (some (E.Cause e "write socks response"))
        trace := [Event.WriteResponse conn response (some e)]
        spawned := [] }
    | none =>
      { outcome := Outcome.returned env.newConnection
        trace := [Event.WriteResponse conn response none,
                  Event.NewConnection ctx conn (handedOff metadata request) env.newConnection]
        spawned := [] }
  else if request.Command = CommandUDPAssociate then
    match env.listenUDP with
    | Except.error e =>
      { outcome := Outcome.returned (some e), trace := [listenEvent env bind], spawned := [] }
    | Except.ok udpConn =>
      let response : Response :=
        { Version := request.Version, ReplyCode := ReplyCodeSuccess,
          Bind := env.SocksaddrFromNet udpConn.LocalAddr }
      match env.writeResponse with
      | some e =>
        { outcome := Outcome.returned (some (E.Cause e "write socks response"))
          trace := [listenEvent env bind, Event.WriteResponse conn response (some e),
                    Event.Close udpConn]
          spawned := [] }
      | none =>
        { outcome := Outcome.returned env.copyDiscard.2
          trace := [listenEvent env bind, Event.WriteResponse conn response none, Event.Go,
                    Event.CopyDiscard conn env.copyDiscard, Event.Close udpConn]
          spawned := associateEvents env ctx conn udpConn request metadata }
  else
    let response : Response :=
      { Version := request.Version, ReplyCode := ReplyCodeUnsupported,
        Bind := Socksaddr.zeroValue }
    match env.writeResponse with
    | some e =>
      { outcome := Outcome.returned (some (E.Cause e "write response"))
        trace := [Event.WriteResponse conn response (some e)]
        spawned := [] }
    | none =>
      { outcome := Outcome.returned none
        trace := [Event.WriteResponse conn response none]
        spawned := [] }

/-- Lines 112-165: the command exchange. -/
def commandRun (env : Env) (ctx : Context) (conn : Conn) (bind : Addr) (metadata : Metadata) :
    Run :=
  match env.readRequest with
  | Except.error e =>
    { outcome := Outcome.returned (some (E.Cause e "read socks request"))
      trace := [Event.ReadRequest conn (Except.error e)]
      spawned := [] }
  | Except.ok request =>
    Seg.finish { events := [Event.ReadRequest conn (Except.ok request)], stop := none }
      (dispatchRun env ctx conn bind metadata request)

/-- The run of `handleConnection`, lines 71-166. -/
def handshakeRun (env : Env) (authRequest : AuthRequest) (ctx : Context) (conn : Conn)
    (authenticator : Option Authenticator) (bind : Addr) (metadata : Metadata) : Run :=
  (authSeg env authRequest conn authenticator).finish (commandRun env ctx conn bind metadata)

/-- The run of `HandleConnection`, lines 55-61. -/
def connectionRun (env : Env) (ctx : Context) (conn : Conn)
    (authenticator : Option Authenticator) (bind : Addr) (metadata : Metadata) : Run :=
  match env.readAuthRequest with
  | Except.error e =>
    { outcome := Outcome.returned (some (E.Cause e "read socks auth request"))
      trace := [Event.ReadAuthRequest conn (Except.error e)]
      spawned := [] }
  | Except.ok authRequest =>
    Seg.finish { events := [Event.ReadAuthRequest conn (Except.ok authRequest)], stop := none }
      (handshakeRun env authRequest ctx conn authenticator bind metadata)

/-! ## Reading a trace -/

/-- An AuthResponse written to the stream. -/
def Event.isWriteAuthResponse : Event → Bool
  | Event.WriteAuthResponse _ _ _ => true
  | _ => false

/-- A UsernamePasswordAuthResponse written to the stream. -/
def Event.isWriteUsernamePasswordAuthResponse : Event → Bool
  | Event.WriteUsernamePasswordAuthResponse _ _ _ => true
  | _ => false

/-- A call of `authenticator.Verify`. -/
def Event.isVerify : Event → Bool
  | Event.Verify _ _ _ => true
  | _ => false

/-- A CommandResponse written to the stream. -/
def Event.isWriteResponse : Event → Bool
  | Event.WriteResponse _ _ _ => true
  | _ => false

/-- A call of `net.ListenUDP`. -/
def Event.isListenUDP : Event → Bool
  | Event.ListenUDP _ _ _ => true
  | _ => false

/-- A read or a write on the controlling stream. -/
def Event.isStreamOp : Event → Bool
  | Event.ReadAuthRequest _ _ => true
  | Event.WriteAuthResponse _ _ _ => true
  | Event.ReadUsernamePasswordAuthRequest _ _ => true
  | Event.WriteUsernamePasswordAuthResponse _ _ _ => true
  | Event.ReadRequest _ _ => true
  | Event.WriteResponse _ _ _ => true
  | Event.CopyDiscard _ _ => true
  | _ => false

/-- An operation of the downstream handler, or the start of the goroutine
that invokes one. -/
def Event.isHandlerOp : Event → Bool
  | Event.NewConnection _ _ _ _ => true
  | Event.NewPacketConnection _ _ _ _ => true
  | Event.HandleError _ => true
  | Event.Go => true
  | _ => false

/-- A UsernamePasswordAuthRequest read from the stream. -/
def Event.isReadUsernamePasswordAuthRequest : Event → Bool
  | Event.ReadUsernamePasswordAuthRequest _ _ => true
  | _ => false

/-- A release of a relay socket. -/
def Event.isClose : Event → Bool
  | Event.Close _ => true
  | _ => false

/-- A call of the handler's stream hand-off. -/
def Event.isNewConnection : Event → Bool
  | Event.NewConnection _ _ _ _ => true
  | _ => false

/-- A call of the handler's error sink. -/
def Event.isHandleError : Event → Bool
  | Event.HandleError _ => true
  | _ => false

/-- The metadata a call hands to the downstream handler, for the two
hand-offs. -/
def Event.handed : Event → Option Metadata
  | Event.NewConnection _ _ metadata _ => some metadata
  | Event.NewPacketConnection _ _ metadata _ => some metadata
  | _ => none

/-- The relay socket a call opened, for a `net.ListenUDP` that succeeded. -/
def Event.opened : Event → Option UDPConn
  | Event.ListenUDP _ _ (Except.ok udpConn) => some udpConn
  | _ => none

/-- The steps of the handshake that go through the codec. -/
inductive Step where
  | readAuthRequest
  | writeAuthResponse
  | readUsernamePasswordAuthRequest
  | writeUsernamePasswordAuthResponse
  | readCommandRequest
  | writeCommandResponse
  deriving DecidableEq, Repr

/-- The cause messages the source gives to a failure of each step (lines 58,
84, 92, 98, 108, 114, 124, 145, 162). -/
def Step.causes : Step → List String
  | Step.readAuthRequest => ["read socks auth request"]
  | Step.writeAuthResponse => ["write socks auth response"]
  | Step.readUsernamePasswordAuthRequest => ["read user auth request"]
  | Step.writeUsernamePasswordAuthResponse => ["write user auth response"]
  | Step.readCommandRequest => ["read socks request"]
  | Step.writeCommandResponse => ["write socks response", "write response"]

/-- The step and the error of a codec call that failed; `none` for every
other event. -/
def Event.failure : Event → Option (Step × Error)
  | Event.ReadAuthRequest _ (Except.error e) => some (Step.readAuthRequest, e)
  | Event.WriteAuthResponse _ _ (some e) => some (Step.writeAuthResponse, e)
  | Event.ReadUsernamePasswordAuthRequest _ (Except.error e) =>
    some (Step.readUsernamePasswordAuthRequest, e)
  | Event.WriteUsernamePasswordAuthResponse _ _ (some e) =>
    some (Step.writeUsernamePasswordAuthResponse, e)
  | Event.ReadRequest _ (Except.error e) => some (Step.readCommandRequest, e)
  | Event.WriteResponse _ _ (some e) => some (Step.writeCommandResponse, e)
  | _ => none

/-- Every codec call of the negotiation (lines 78-110) that is reached
succeeds. -/
def Negotiates (env : Env) (authRequest : AuthRequest) (authenticator : Option Authenticator) :
    Prop :=
  (common.Contains authRequest.Methods (requiredMethod authenticator) = true ∨
      env.writeNoAcceptedMethods = none) ∧
    env.writeAuthResponse = none ∧
    (authenticator.isSome = true →
      (∃ r, env.readUsernamePasswordAuthRequest = Except.ok r) ∧
        env.writeUsernamePasswordAuthResponse = none)

/-- The calls of a run, read from the first one on, abort cleanly at a failed
codec call: no stream operation and no handler operation comes after it, no
handler operation came before it, no goroutine was started, and the function
returns the error of the call wrapped with a cause message of its step. -/
def AbortsCleanly (outcome : Outcome) (spawned : List Event) : List Event → Prop
  | [] => True
  | e :: rest =>
    match e.failure with
    | some (step, err) =>
      (∀ x ∈ rest, x.isStreamOp = false ∧ x.isHandlerOp = false) ∧ spawned = [] ∧
        ∃ message ∈ step.causes, outcome = Outcome.returned (some (E.Cause err message))
    | none =>
      (e.isHandlerOp = true → ∀ x ∈ rest, x.failure = none) ∧ AbortsCleanly outcome spawned rest


/-- A stretch is clean when it goes through without a failed codec call and
without a handler operation, or ends the function with a clean abort. -/
def Seg.Clean (s : Seg) : Prop :=
  match s.stop with
  | none => ∀ e ∈ s.events, e.failure = none ∧ e.isHandlerOp = false
  | some o => AbortsCleanly o [] s.events

/-! ## Sample inputs -/

/-- A stream accepted on 10.0.0.1:1080. -/
def sampleConn : Conn :=
  { id := 1, LocalAddr := { IP := Addr.ip4 0x0A000001, Port := 1080 } }

/-- A relay socket on an ephemeral port. -/
def sampleUDPConn : UDPConn :=
  { id := 2, LocalAddr := { IP := Addr.ip4 0x0A000001, Port := 40000 } }

/-- A destination named by the client. -/
def sampleDestination : Socksaddr :=
  { Addr := Addr.ip4 0x5DB8D822, Fqdn := "", Port := 443 }

/-- A context. -/
def sampleContext : Context :=
  { id := 0 }

/-- Metadata as the listener passes it in. -/
def sampleMetadata : Metadata :=
  { Protocol := "", Destination := Socksaddr.zeroValue, Session := [7] }

/-- An environment in which every call succeeds; the client sends the given
command. -/
def sampleEnv (command : Nat) : Env :=
  { readAuthRequest := Except.ok { Version := 5, Methods := [0, 2] }
    readAuthRequest0 := Except.ok { Version := 5, Methods := [0, 2] }
    writeNoAcceptedMethods := none
    writeAuthResponse := none
    readUsernamePasswordAuthRequest := Except.ok { Username := "user", Password := "secret" }
    writeUsernamePasswordAuthResponse := none
    readRequest := Except.ok { Version := 5, Command := command, Destination := sampleDestination }
    writeResponse := none
    listenUDP := Except.ok sampleUDPConn
    newConnection := none
    newPacketConnection := none
    copyDiscard := (0, none)
    SocksaddrFromNet := fun a => { Addr := a.IP, Fqdn := "", Port := a.Port } }

/-- An authenticator that accepts one credential pair. -/
def sampleAuthenticator : Authenticator :=
  { Verify := fun username password => username == "user" && password == "secret" }

/-- An authenticator that rejects everything. -/
def rejectingAuthenticator : Authenticator :=
  { Verify := fun _ _ => false }

/-! ## Running a function body -/

@[simp] theorem Proc.pure_apply {α : Type} (a : α) (w : World) :
    (pure a : Proc α) w = (a, w) := rfl

@[simp] theorem Proc.bind_apply {α β : Type} (x : Proc α) (f : α → Proc β) (w : World) :
    (x >>= f) w = f (x w).1 (x w).2 := rfl

@[simp] theorem emit_apply (e : Event) (w : World) :
    emit e w = ((), { trace := w.trace ++ [e], spawned := w.spawned }) := rfl

@[simp] theorem go_apply (task : Proc Unit) (w : World) :
    go task w = ((), { trace := w.trace ++ [Event.Go],
                       spawned := w.spawned ++ (task { trace := [], spawned := [] }).2.trace }) :=
  rfl

/-! ## The closed form is the run -/

theorem handleConnection_eq (env : Env) (authRequest : AuthRequest) (ctx : Context)
    (conn : Conn) (authenticator : Option Authenticator) (bind : Addr) (metadata : Metadata) :
    handleConnection env authRequest ctx conn authenticator bind metadata = (do
      let authMethod : Nat :=
        if authenticator.isNone then AuthTypeNotRequired else AuthTypeUsernamePassword
      if !common.Contains authRequest.Methods authMethod then
        let err ← WriteAuthResponse env.writeNoAcceptedMethods conn
          { Version := authRequest.Version, Method := AuthTypeNoAcceptedMethods }
        if let some err := err then
          return Outcome.returned (some (E.Cause err "write socks auth response"))
      let err ← WriteAuthResponse env.writeAuthResponse conn
        { Version := authRequest.Version, Method := authMethod }
      if let some err := err then
        return Outcome.returned (some (E.Cause err "write socks auth response"))
      if authMethod = AuthTypeUsernamePassword then
        let usernamePasswordAuthRequest ←
          match ← ReadUsernamePasswordAuthRequest env conn with
          | Except.error err =>
            return Outcome.returned (some (E.Cause err "read user auth request"))
          | Except.ok r => pure r
        let mut response : UsernamePasswordAuthResponse := { Status := 0 }
        let verified ←
          match authenticator with
          | none => return Outcome.panicked "invalid memory address or nil pointer dereference"
          | some a =>
            a.verify usernamePasswordAuthRequest.Username usernamePasswordAuthRequest.Password
        if verified then
          response := { response with Status := UsernamePasswordStatusSuccess }
        else
          response := { response with Status := UsernamePasswordStatusFailure }
        let err ← WriteUsernamePasswordAuthResponse env conn response
        if let some err := err then
          return Outcome.returned (some (E.Cause err "write user auth response"))
      commandPhase env ctx conn bind metadata) := rfl

theorem commandPhase_apply (env : Env) (ctx : Context) (conn : Conn) (bind : Addr)
    (metadata : Metadata) (w : World) :
    commandPhase env ctx conn bind metadata w =
      ((commandRun env ctx conn bind metadata).outcome,
        { trace := w.trace ++ (commandRun env ctx conn bind metadata).trace
          spawned := w.spawned ++ (commandRun env ctx conn bind metadata).spawned }) := by
  simp only [commandPhase, commandRun, ReadRequest, Proc.bind_apply, Proc.pure_apply, emit_apply]
  cases env.readRequest with
  | error e => simp
  | ok request =>
    simp only [Proc.bind_apply, Proc.pure_apply, ite_apply, dispatchRun, Seg.finish, WriteResponse,
      Handler.NewConnection, net.ListenUDP, io.CopyDiscard, UDPConn.Close, associateTask,
      Handler.NewPacketConnection, Handler.HandleError, emit_apply, go_apply, handedOff,
      listenEvent, relayNetwork, associateEvents, common.Error, net.UDPAddrFromAddrPort,
      netip.AddrPortFrom]
    by_cases h1 : request.Command = CommandConnect
    · simp only [h1, if_true]
      cases env.writeResponse <;> simp
    · simp only [h1, if_false]
      by_cases h2 : request.Command = CommandUDPAssociate
      · simp only [h2, if_true]
        cases env.listenUDP with
        | error e => split_ifs <;> simp
        | ok u =>
          cases env.writeResponse with
          | some e => split_ifs <;> simp
          | none => cases env.newPacketConnection <;> split_ifs <;> simp
      · simp only [h2, if_false]
        cases env.writeResponse <;> simp

/-- Started in any world, `handleConnection` appends the calls of its closed
form. -/
theorem handleConnection_apply (env : Env) (authRequest : AuthRequest) (ctx : Context)
    (conn : Conn) (authenticator : Option Authenticator) (bind : Addr) (metadata : Metadata)
    (w : World) :
    handleConnection env authRequest ctx conn authenticator bind metadata w =
      ((handshakeRun env authRequest ctx conn authenticator bind metadata).outcome,
        { trace := w.trace ++
            (handshakeRun env authRequest ctx conn authenticator bind metadata).trace
          spawned := w.spawned ++
            (handshakeRun env authRequest ctx conn authenticator bind metadata).spawned }) := by
  have h02 : AuthTypeNotRequired ≠ AuthTypeUsernamePassword := by decide
  rw [handleConnection_eq]
  simp only [handshakeRun, authSeg, rejectSeg, chooseSeg, userPassSeg,
    WriteAuthResponse, ReadUsernamePasswordAuthRequest, WriteUsernamePasswordAuthResponse,
    Authenticator.verify, requiredMethod, abortWith, statusOf, Seg.andThen, Seg.finish,
    Proc.bind_apply, Proc.pure_apply, emit_apply, ite_apply]
  cases authenticator with
  | none =>
    simp only [Option.isNone_none, if_true, h02, if_false]
    cases common.Contains authRequest.Methods AuthTypeNotRequired
    · cases env.writeNoAcceptedMethods with
      | some e => simp
      | none => cases env.writeAuthResponse <;> simp [commandPhase_apply]
    · cases env.writeAuthResponse <;> simp [commandPhase_apply]
  | some a =>
    simp only [Option.isNone_some, Bool.false_eq_true, if_true, if_false]
    cases common.Contains authRequest.Methods AuthTypeUsernamePassword
    · cases env.writeNoAcceptedMethods with
      | some e => simp
      | none =>
        cases env.writeAuthResponse with
        | some e => simp
        | none =>
          cases env.readUsernamePasswordAuthRequest with
          | error e => simp
          | ok r =>
            cases env.writeUsernamePasswordAuthResponse <;>
              cases hv : a.Verify r.Username r.Password <;> simp [commandPhase_apply, hv]
    · cases env.writeAuthResponse with
      | some e => simp
      | none =>
        cases env.readUsernamePasswordAuthRequest with
        | error e => simp
        | ok r =>
          cases env.writeUsernamePasswordAuthResponse <;>
            cases hv : a.Verify r.Username r.Password <;> simp [commandPhase_apply, hv]

/-- The run of `handleConnection` is its closed form. -/
theorem handleConnection_exec (env : Env) (authRequest : AuthRequest) (ctx : Context)
    (conn : Conn) (authenticator : Option Authenticator) (bind : Addr) (metadata : Metadata) :
    (handleConnection env authRequest ctx conn authenticator bind metadata).exec =
      handshakeRun env authRequest ctx conn authenticator bind metadata := by
  simp [Proc.exec, handleConnection_apply]

/-- The run of `HandleConnection` is its closed form. -/
theorem HandleConnection_exec (env : Env) (ctx : Context) (conn : Conn)
    (authenticator : Option Authenticator) (bind : Addr) (metadata : Metadata) :
    (HandleConnection env ctx conn authenticator bind metadata).exec =
      connectionRun env ctx conn authenticator bind metadata := by
  simp only [Proc.exec, HandleConnection, connectionRun, ReadAuthRequest, Proc.bind_apply,
    Proc.pure_apply, emit_apply]
  cases env.readAuthRequest with
  | error e => simp
  | ok authRequest => simp [handleConnection_apply, Seg.finish]

/-! ## Facts about the closed form -/

theorem requiredMethod_none : requiredMethod none = AuthTypeNotRequired := rfl

theorem requiredMethod_some (a : Authenticator) :
    requiredMethod (some a) = AuthTypeUsernamePassword := rfl

theorem Seg.finish_continue (events : List Event) (r : Run) :
    Seg.finish { events := events, stop := none } r =
      { outcome := r.outcome, trace := events ++ r.trace, spawned := r.spawned } := rfl

theorem Seg.finish_stop (events : List Event) (o : Outcome) (r : Run) :
    Seg.finish { events := events, stop := some o } r =
      { outcome := o, trace := events, spawned := [] } := rfl

/-- The command exchange writes no AuthResponse. -/
theorem commandRun_no_authResponse (env : Env) (ctx : Context) (conn : Conn) (bind : Addr)
    (metadata : Metadata) :
    (commandRun env ctx conn bind metadata).trace.filter Event.isWriteAuthResponse = [] := by
  simp only [commandRun, dispatchRun, Seg.finish_continue, listenEvent]
  repeat' split
  all_goals simp [Event.isWriteAuthResponse]

/-- The sub-negotiation writes no AuthResponse. -/
theorem userPassSeg_no_authResponse (env : Env) (conn : Conn)
    (authenticator : Option Authenticator) :
    (userPassSeg env conn authenticator).events.filter Event.isWriteAuthResponse = [] := by
  cases authenticator with
  | none => rfl
  | some a =>
    simp only [userPassSeg]
    cases env.readUsernamePasswordAuthRequest <;> simp [Event.isWriteAuthResponse]

/-- The command exchange starts by reading the CommandRequest. -/
theorem commandRun_trace_cons (env : Env) (ctx : Context) (conn : Conn) (bind : Addr)
    (metadata : Metadata) :
    ∃ rest, (commandRun env ctx conn bind metadata).trace =
      Event.ReadRequest conn env.readRequest :: rest := by
  simp only [commandRun, Seg.finish_continue]
  split <;> simp [*]

/-- The no-acceptable-methods response does not end the function when it is
not due or is written. -/
theorem rejectSeg_stop (env : Env) (authRequest : AuthRequest) (conn : Conn)
    (authenticator : Option Authenticator)
    (h : common.Contains authRequest.Methods (requiredMethod authenticator) = true ∨
      env.writeNoAcceptedMethods = none) :
    (rejectSeg env authRequest conn authenticator).stop = none := by
  unfold rejectSeg
  split
  · rfl
  · rcases h with h | h
    · contradiction
    · simp [abortWith, h]

/-- The negotiation when no AuthResponse write fails: the stretches follow
each other. -/
theorem authSeg_of_written (env : Env) (authRequest : AuthRequest) (conn : Conn)
    (authenticator : Option Authenticator)
    (h : common.Contains authRequest.Methods (requiredMethod authenticator) = true ∨
      env.writeNoAcceptedMethods = none)
    (hwrite : env.writeAuthResponse = none) :
    authSeg env authRequest conn authenticator =
      { events := (rejectSeg env authRequest conn authenticator).events ++
          Event.WriteAuthResponse conn
            { Version := authRequest.Version, Method := requiredMethod authenticator } none ::
          (userPassSeg env conn authenticator).events
        stop := (userPassSeg env conn authenticator).stop } := by
  have hr := rejectSeg_stop env authRequest conn authenticator h
  simp [authSeg, Seg.andThen, hr, chooseSeg, abortWith, hwrite]

/-- A negotiation in which no codec call fails does not end the function. -/
theorem authSeg_stop_of_negotiates (env : Env) (authRequest : AuthRequest) (conn : Conn)
    (authenticator : Option Authenticator) (h : Negotiates env authRequest authenticator) :
    (authSeg env authRequest conn authenticator).stop = none := by
  obtain ⟨h1, h2, h3⟩ := h
  rw [authSeg_of_written env authRequest conn authenticator h1 h2]
  cases authenticator with
  | none => rfl
  | some a =>
    obtain ⟨⟨r, hr⟩, hw⟩ := h3 rfl
    simp [userPassSeg, hr, hw, abortWith]

/-! ## The authentication method -/

/-- C1: when the offered method set contains the required method (0x00 without
an authenticator, 0x02 with one) and the AuthResponse write succeeds,
`handleConnection` writes exactly one AuthResponse, and it selects the
required method. -/
theorem C1_one_auth_response_with_required_method (env : Env) (authRequest : AuthRequest)
    (ctx : Context) (conn : Conn) (authenticator : Option Authenticator) (bind : Addr)
    (metadata : Metadata)
    (hoffered : common.Contains authRequest.Methods
      (if authenticator.isNone then AuthTypeNotRequired else AuthTypeUsernamePassword) = true)
    (hwrite : env.writeAuthResponse = none) :
    (handleConnection env authRequest ctx conn authenticator bind metadata).exec.trace.filter
        Event.isWriteAuthResponse =
      [Event.WriteAuthResponse conn
        { Version := authRequest.Version
          Method := if authenticator.isNone then AuthTypeNotRequired
            else AuthTypeUsernamePassword }
        none] := by
  rw [handleConnection_exec]
  have hreq : requiredMethod authenticator =
      (if authenticator.isNone then AuthTypeNotRequired else AuthTypeUsernamePassword) := rfl
  rw [← hreq] at hoffered ⊢
  have hcmd := commandRun_no_authResponse env ctx conn bind metadata
  have hup := userPassSeg_no_authResponse env conn authenticator
  simp only [handshakeRun, authSeg, rejectSeg, chooseSeg, hoffered, if_true, Seg.andThen,
    abortWith, hwrite, Option.map_none', Seg.finish]
  cases hs : (userPassSeg env conn authenticator).stop <;>
    simp [hs, hcmd, hup, Event.isWriteAuthResponse]

theorem C1_witness :
    common.Contains [0, 2]
        (if (some sampleAuthenticator).isNone then AuthTypeNotRequired
          else AuthTypeUsernamePassword) = true ∧
      (sampleEnv CommandConnect).writeAuthResponse = none ∧
      (handleConnection (sampleEnv CommandConnect) { Version := 5, Methods := [0, 2] }
          sampleContext sampleConn (some sampleAuthenticator) (Addr.ip4 0x0A000001)
          sampleMetadata).exec.trace.filter Event.isWriteAuthResponse =
        [Event.WriteAuthResponse sampleConn
          { Version := 5
            Method := if (some sampleAuthenticator).isNone then AuthTypeNotRequired
              else AuthTypeUsernamePassword }
          none] :=
  ⟨by decide, rfl,
    C1_one_auth_response_with_required_method (sampleEnv CommandConnect)
      { Version := 5, Methods := [0, 2] } sampleContext sampleConn (some sampleAuthenticator)
      (Addr.ip4 0x0A000001) sampleMetadata (by decide) rfl⟩

/-- C2: when the offered method set does not contain the required method and
no codec call fails, `handleConnection` writes two AuthResponse messages, first
the one selecting no-acceptable-methods (0xFF), then the one selecting the
required method, and it still goes on to read the CommandRequest. -/
theorem C2_rejection_followed_by_required_method (env : Env) (authRequest : AuthRequest)
    (ctx : Context) (conn : Conn) (authenticator : Option Authenticator) (bind : Addr)
    (metadata : Metadata)
    (hmissing : common.Contains authRequest.Methods
      (if authenticator.isNone then AuthTypeNotRequired else AuthTypeUsernamePassword) = false)
    (hreject : env.writeNoAcceptedMethods = none)
    (hwrite : env.writeAuthResponse = none)
    (hsub : authenticator.isSome = true →
      (∃ r, env.readUsernamePasswordAuthRequest = Except.ok r) ∧
        env.writeUsernamePasswordAuthResponse = none) :
    (handleConnection env authRequest ctx conn authenticator bind metadata).exec.trace.filter
        Event.isWriteAuthResponse =
      [Event.WriteAuthResponse conn
          { Version := authRequest.Version, Method := AuthTypeNoAcceptedMethods } none,
        Event.WriteAuthResponse conn
          { Version := authRequest.Version
            Method := if authenticator.isNone then AuthTypeNotRequired
              else AuthTypeUsernamePassword }
          none] ∧
      (handleConnection env authRequest ctx conn authenticator bind metadata).exec.trace.take 2 =
        [Event.WriteAuthResponse conn
            { Version := authRequest.Version, Method := AuthTypeNoAcceptedMethods } none,
          Event.WriteAuthResponse conn
            { Version := authRequest.Version
              Method := if authenticator.isNone then AuthTypeNotRequired
                else AuthTypeUsernamePassword }
            none] ∧
      AuthTypeNoAcceptedMethods = 0xFF ∧
      Event.ReadRequest conn env.readRequest ∈
        (handleConnection env authRequest ctx conn authenticator bind metadata).exec.trace := by
  rw [handleConnection_exec]
  have hreq : requiredMethod authenticator =
      (if authenticator.isNone then AuthTypeNotRequired else AuthTypeUsernamePassword) := rfl
  rw [← hreq] at hmissing ⊢
  have hneg : Negotiates env authRequest authenticator := ⟨Or.inr hreject, hwrite, hsub⟩
  have hstop := authSeg_stop_of_negotiates env authRequest conn authenticator hneg
  have hseg := authSeg_of_written env authRequest conn authenticator (Or.inr hreject) hwrite
  have hcmd := commandRun_no_authResponse env ctx conn bind metadata
  have hup := userPassSeg_no_authResponse env conn authenticator
  obtain ⟨rest, hrest⟩ := commandRun_trace_cons env ctx conn bind metadata
  rw [hseg] at hstop
  simp only at hstop
  simp only [handshakeRun, hseg, hstop, Seg.finish_continue]
  refine ⟨?_, ?_, rfl, ?_⟩
  · simp [rejectSeg, hmissing, hreject, hcmd, hup, Event.isWriteAuthResponse]
  · simp [rejectSeg, hmissing, hreject]
  · simp [hrest]

theorem C2_witness :
    common.Contains [0]
        (if (some sampleAuthenticator).isNone then AuthTypeNotRequired
          else AuthTypeUsernamePassword) = false ∧
      (sampleEnv CommandConnect).writeNoAcceptedMethods = none ∧
      (sampleEnv CommandConnect).writeAuthResponse = none ∧
      Event.ReadRequest sampleConn (sampleEnv CommandConnect).readRequest ∈
        (handleConnection (sampleEnv CommandConnect) { Version := 5, Methods := [0] }
          sampleContext sampleConn (some sampleAuthenticator) (Addr.ip4 0x0A000001)
          sampleMetadata).exec.trace :=
  ⟨by decide, rfl, rfl,
    (C2_rejection_followed_by_required_method (sampleEnv CommandConnect)
      { Version := 5, Methods := [0] } sampleContext sampleConn (some sampleAuthenticator)
      (Addr.ip4 0x0A000001) sampleMetadata (by decide) rfl rfl
      (fun _ => ⟨⟨_, rfl⟩, rfl⟩)).2.2.2⟩

/-- The events of the command exchange are none of those of the negotiation. -/
theorem commandRun_trace_kinds (env : Env) (ctx : Context) (conn : Conn) (bind : Addr)
    (metadata : Metadata) :
    ∀ e ∈ (commandRun env ctx conn bind metadata).trace,
      e.isWriteAuthResponse = false ∧ e.isWriteUsernamePasswordAuthResponse = false ∧
        e.isVerify = false := by
  simp only [commandRun, dispatchRun, Seg.finish_continue, listenEvent]
  repeat' split
  all_goals simp [Event.isWriteAuthResponse, Event.isWriteUsernamePasswordAuthResponse,
    Event.isVerify]

/-- The events of the negotiation are none of those of the command exchange. -/
theorem authSeg_events_kinds (env : Env) (authRequest : AuthRequest) (conn : Conn)
    (authenticator : Option Authenticator) :
    ∀ e ∈ (authSeg env authRequest conn authenticator).events,
      e.isWriteResponse = false ∧ e.isHandlerOp = false ∧ e.isListenUDP = false := by
  simp only [authSeg, rejectSeg, chooseSeg, userPassSeg, Seg.andThen, abortWith]
  repeat' split
  all_goals simp_all [Event.isWriteResponse, Event.isHandlerOp, Event.isListenUDP]

/-- The negotiation with an authenticator, once the AuthResponse is written
and the credentials are read. -/
theorem authSeg_of_credentials (env : Env) (authRequest : AuthRequest) (conn : Conn)
    (a : Authenticator) (r : UsernamePasswordAuthRequest)
    (hreach : common.Contains authRequest.Methods AuthTypeUsernamePassword = true ∨
      env.writeNoAcceptedMethods = none)
    (hwrite : env.writeAuthResponse = none)
    (hread : env.readUsernamePasswordAuthRequest = Except.ok r) :
    authSeg env authRequest conn (some a) =
      { events := ((rejectSeg env authRequest conn (some a)).events ++
            [Event.WriteAuthResponse conn
              { Version := authRequest.Version, Method := AuthTypeUsernamePassword } none,
             Event.ReadUsernamePasswordAuthRequest conn (Except.ok r)]) ++
          [Event.Verify r.Username r.Password (a.Verify r.Username r.Password),
           Event.WriteUsernamePasswordAuthResponse conn
             { Status := statusOf (a.Verify r.Username r.Password) }
             env.writeUsernamePasswordAuthResponse]
        stop := abortWith env.writeUsernamePasswordAuthResponse "write user auth response" } := by
  rw [authSeg_of_written env authRequest conn (some a) hreach hwrite]
  simp [userPassSeg, hread, requiredMethod_some]

/-- The no-acceptable-methods stretch holds AuthResponse writes only. -/
theorem rejectSeg_events_kinds (env : Env) (authRequest : AuthRequest) (conn : Conn)
    (authenticator : Option Authenticator) :
    ∀ e ∈ (rejectSeg env authRequest conn authenticator).events,
      e.isWriteUsernamePasswordAuthResponse = false ∧ e.isVerify = false := by
  unfold rejectSeg
  split <;> simp [Event.isWriteUsernamePasswordAuthResponse, Event.isVerify]

/-! ## The credential check -/

/-- C3: with an authenticator configured, once the AuthResponse is written and
the UsernamePasswordAuthRequest is read, `handleConnection` calls `Verify` once,
on the username and password of that request, and then writes one
UsernamePasswordAuthResponse, whose status is success if and only if `Verify`
returned true and failure if and only if it returned false. -/
theorem C3_status_reflects_verify (env : Env) (authRequest : AuthRequest) (ctx : Context)
    (conn : Conn) (a : Authenticator) (bind : Addr) (metadata : Metadata)
    (r : UsernamePasswordAuthRequest)
    (hreach : common.Contains authRequest.Methods AuthTypeUsernamePassword = true ∨
      env.writeNoAcceptedMethods = none)
    (hwrite : env.writeAuthResponse = none)
    (hread : env.readUsernamePasswordAuthRequest = Except.ok r) :
    ∃ status,
      (handleConnection env authRequest ctx conn (some a) bind metadata).exec.trace.filter
          Event.isWriteUsernamePasswordAuthResponse =
        [Event.WriteUsernamePasswordAuthResponse conn { Status := status }
          env.writeUsernamePasswordAuthResponse] ∧
      (handleConnection env authRequest ctx conn (some a) bind metadata).exec.trace.filter
          Event.isVerify =
        [Event.Verify r.Username r.Password (a.Verify r.Username r.Password)] ∧
      [Event.Verify r.Username r.Password (a.Verify r.Username r.Password),
        Event.WriteUsernamePasswordAuthResponse conn { Status := status }
          env.writeUsernamePasswordAuthResponse] <:+:
        (handleConnection env authRequest ctx conn (some a) bind metadata).exec.trace ∧
      (status = UsernamePasswordStatusSuccess ↔ a.Verify r.Username r.Password = true) ∧
      (status = UsernamePasswordStatusFailure ↔ a.Verify r.Username r.Password = false) := by
  refine ⟨statusOf (a.Verify r.Username r.Password), ?_⟩
  rw [handleConnection_exec]
  have hseg := authSeg_of_credentials env authRequest conn a r hreach hwrite hread
  have hrej := rejectSeg_events_kinds env authRequest conn (some a)
  have hcmd := commandRun_trace_kinds env ctx conn bind metadata
  have hrej1 : (rejectSeg env authRequest conn (some a)).events.filter
      Event.isWriteUsernamePasswordAuthResponse = [] :=
    List.filter_eq_nil_iff.mpr fun e he => by simp [(hrej e he).1]
  have hrej2 : (rejectSeg env authRequest conn (some a)).events.filter Event.isVerify = [] :=
    List.filter_eq_nil_iff.mpr fun e he => by simp [(hrej e he).2]
  have hcmd1 : (commandRun env ctx conn bind metadata).trace.filter
      Event.isWriteUsernamePasswordAuthResponse = [] :=
    List.filter_eq_nil_iff.mpr fun e he => by simp [(hcmd e he).2.1]
  have hcmd2 : (commandRun env ctx conn bind metadata).trace.filter Event.isVerify = [] :=
    List.filter_eq_nil_iff.mpr fun e he => by simp [(hcmd e he).2.2]
  refine ⟨?_, ?_, ?_, ?_, ?_⟩
  · simp only [handshakeRun, hseg]
    cases env.writeUsernamePasswordAuthResponse <;>
      simp [abortWith, Seg.finish, hrej1, hcmd1, Event.isWriteUsernamePasswordAuthResponse]
  · simp only [handshakeRun, hseg]
    cases env.writeUsernamePasswordAuthResponse <;>
      simp [abortWith, Seg.finish, hrej2, hcmd2, Event.isVerify]
  · simp only [handshakeRun, hseg]
    cases env.writeUsernamePasswordAuthResponse with
    | some e =>
      exact ⟨(rejectSeg env authRequest conn (some a)).events ++
        [Event.WriteAuthResponse conn
          { Version := authRequest.Version, Method := AuthTypeUsernamePassword } none,
         Event.ReadUsernamePasswordAuthRequest conn (Except.ok r)], [],
        by simp [abortWith, Seg.finish]⟩
    | none =>
      exact ⟨(rejectSeg env authRequest conn (some a)).events ++
        [Event.WriteAuthResponse conn
          { Version := authRequest.Version, Method := AuthTypeUsernamePassword } none,
         Event.ReadUsernamePasswordAuthRequest conn (Except.ok r)],
        (commandRun env ctx conn bind metadata).trace, by simp [abortWith, Seg.finish]⟩
  · cases a.Verify r.Username r.Password <;> decide
  · cases a.Verify r.Username r.Password <;> decide

theorem C3_witness :
    ∃ status,
      (handleConnection (sampleEnv CommandConnect) { Version := 5, Methods := [2] }
          sampleContext sampleConn (some rejectingAuthenticator) (Addr.ip4 0x0A000001)
          sampleMetadata).exec.trace.filter Event.isWriteUsernamePasswordAuthResponse =
        [Event.WriteUsernamePasswordAuthResponse sampleConn { Status := status }
          (sampleEnv CommandConnect).writeUsernamePasswordAuthResponse] ∧
      (handleConnection (sampleEnv CommandConnect) { Version := 5, Methods := [2] }
          sampleContext sampleConn (some rejectingAuthenticator) (Addr.ip4 0x0A000001)
          sampleMetadata).exec.trace.filter Event.isVerify =
        [Event.Verify "user" "secret" (rejectingAuthenticator.Verify "user" "secret")] ∧
      [Event.Verify "user" "secret" (rejectingAuthenticator.Verify "user" "secret"),
        Event.WriteUsernamePasswordAuthResponse sampleConn { Status := status }
          (sampleEnv CommandConnect).writeUsernamePasswordAuthResponse] <:+:
        (handleConnection (sampleEnv CommandConnect) { Version := 5, Methods := [2] }
          sampleContext sampleConn (some rejectingAuthenticator) (Addr.ip4 0x0A000001)
          sampleMetadata).exec.trace ∧
      (status = UsernamePasswordStatusSuccess ↔
        rejectingAuthenticator.Verify "user" "secret" = true) ∧
      (status = UsernamePasswordStatusFailure ↔
        rejectingAuthenticator.Verify "user" "secret" = false) :=
  C3_status_reflects_verify (sampleEnv CommandConnect) { Version := 5, Methods := [2] }
    sampleContext sampleConn rejectingAuthenticator (Addr.ip4 0x0A000001) sampleMetadata
    { Username := "user", Password := "secret" } (Or.inl (by decide)) rfl rfl

/-- C4: a failed credential check does not abort the handshake. Two runs with a
configured authenticator that get the same AuthRequest, the same credentials
and the same codec results, and differ only in what `Verify` returns, make the
same calls up to `Verify`, the same calls after the
UsernamePasswordAuthResponse, start the same goroutine work and end the same
way; when that response is written, the next call of both is the read of the
CommandRequest. -/
theorem C4_verify_result_changes_status_only (env : Env) (authRequest : AuthRequest)
    (ctx : Context) (conn : Conn) (a₁ a₂ : Authenticator) (bind : Addr) (metadata : Metadata)
    (r : UsernamePasswordAuthRequest)
    (hreach : common.Contains authRequest.Methods AuthTypeUsernamePassword = true ∨
      env.writeNoAcceptedMethods = none)
    (hwrite : env.writeAuthResponse = none)
    (hread : env.readUsernamePasswordAuthRequest = Except.ok r) :
    ∃ pre post s₁ s₂,
      (handleConnection env authRequest ctx conn (some a₁) bind metadata).exec.trace =
        pre ++
          [Event.Verify r.Username r.Password (a₁.Verify r.Username r.Password),
            Event.WriteUsernamePasswordAuthResponse conn { Status := s₁ }
              env.writeUsernamePasswordAuthResponse] ++ post ∧
      (handleConnection env authRequest ctx conn (some a₂) bind metadata).exec.trace =
        pre ++
          [Event.Verify r.Username r.Password (a₂.Verify r.Username r.Password),
            Event.WriteUsernamePasswordAuthResponse conn { Status := s₂ }
              env.writeUsernamePasswordAuthResponse] ++ post ∧
      (∀ e ∈ pre, e.isHandlerOp = false) ∧
      (handleConnection env authRequest ctx conn (some a₁) bind metadata).exec.outcome =
        (handleConnection env authRequest ctx conn (some a₂) bind metadata).exec.outcome ∧
      (handleConnection env authRequest ctx conn (some a₁) bind metadata).exec.spawned =
        (handleConnection env authRequest ctx conn (some a₂) bind metadata).exec.spawned ∧
      (env.writeUsernamePasswordAuthResponse = none →
        ∃ rest, post = Event.ReadRequest conn env.readRequest :: rest) := by
  rw [handleConnection_exec, handleConnection_exec]
  have hseg₁ := authSeg_of_credentials env authRequest conn a₁ r hreach hwrite hread
  have hseg₂ := authSeg_of_credentials env authRequest conn a₂ r hreach hwrite hread
  have hsame : rejectSeg env authRequest conn (some a₂) = rejectSeg env authRequest conn (some a₁) :=
    rfl
  rw [hsame] at hseg₂
  obtain ⟨rest, hrest⟩ := commandRun_trace_cons env ctx conn bind metadata
  have hpre : ∀ e ∈ (rejectSeg env authRequest conn (some a₁)).events ++
      [Event.WriteAuthResponse conn
        { Version := authRequest.Version, Method := AuthTypeUsernamePassword } none,
       Event.ReadUsernamePasswordAuthRequest conn (Except.ok r)], e.isHandlerOp = false := by
    intro e he
    apply (authSeg_events_kinds env authRequest conn (some a₁) e _).2.1
    rw [hseg₁]
    simp only [List.mem_append] at he ⊢
    exact Or.inl he
  simp only [handshakeRun, hseg₁, hseg₂]
  cases hw : env.writeUsernamePasswordAuthResponse with
  | some e =>
    refine ⟨_, [], statusOf (a₁.Verify r.Username r.Password),
      statusOf (a₂.Verify r.Username r.Password), ?_, ?_, hpre, ?_, ?_, ?_⟩ <;>
      simp [abortWith, Seg.finish]
  | none =>
    refine ⟨_, (commandRun env ctx conn bind metadata).trace,
      statusOf (a₁.Verify r.Username r.Password),
      statusOf (a₂.Verify r.Username r.Password), ?_, ?_, hpre, ?_, ?_, fun _ => ⟨rest, hrest⟩⟩ <;>
      simp [abortWith, Seg.finish]

theorem C4_witness :
    ∃ pre post s₁ s₂,
      (handleConnection (sampleEnv CommandConnect) { Version := 5, Methods := [2] }
          sampleContext sampleConn (some sampleAuthenticator) (Addr.ip4 0x0A000001)
          sampleMetadata).exec.trace =
        pre ++
          [Event.Verify "user" "secret" (sampleAuthenticator.Verify "user" "secret"),
            Event.WriteUsernamePasswordAuthResponse sampleConn { Status := s₁ }
              (sampleEnv CommandConnect).writeUsernamePasswordAuthResponse] ++ post ∧
      (handleConnection (sampleEnv CommandConnect) { Version := 5, Methods := [2] }
          sampleContext sampleConn (some rejectingAuthenticator) (Addr.ip4 0x0A000001)
          sampleMetadata).exec.trace =
        pre ++
          [Event.Verify "user" "secret" (rejectingAuthenticator.Verify "user" "secret"),
            Event.WriteUsernamePasswordAuthResponse sampleConn { Status := s₂ }
              (sampleEnv CommandConnect).writeUsernamePasswordAuthResponse] ++ post ∧
      (∀ e ∈ pre, e.isHandlerOp = false) ∧
      (handleConnection (sampleEnv CommandConnect) { Version := 5, Methods := [2] }
          sampleContext sampleConn (some sampleAuthenticator) (Addr.ip4 0x0A000001)
          sampleMetadata).exec.outcome =
        (handleConnection (sampleEnv CommandConnect) { Version := 5, Methods := [2] }
          sampleContext sampleConn (some rejectingAuthenticator) (Addr.ip4 0x0A000001)
          sampleMetadata).exec.outcome ∧
      (handleConnection (sampleEnv CommandConnect) { Version := 5, Methods := [2] }
          sampleContext sampleConn (some sampleAuthenticator) (Addr.ip4 0x0A000001)
          sampleMetadata).exec.spawned =
        (handleConnection (sampleEnv CommandConnect) { Version := 5, Methods := [2] }
          sampleContext sampleConn (some rejectingAuthenticator) (Addr.ip4 0x0A000001)
          sampleMetadata).exec.spawned ∧
      ((sampleEnv CommandConnect).writeUsernamePasswordAuthResponse = none →
        ∃ rest, post = Event.ReadRequest sampleConn (sampleEnv CommandConnect).readRequest ::
          rest) :=
  C4_verify_result_changes_status_only (sampleEnv CommandConnect)
    { Version := 5, Methods := [2] } sampleContext sampleConn sampleAuthenticator
    rejectingAuthenticator (Addr.ip4 0x0A000001) sampleMetadata
    { Username := "user", Password := "secret" } (Or.inl (by decide)) rfl rfl

/-! ## The command dispatch -/

/-- The run when the negotiation goes through and a CommandRequest is read:
the negotiation, the read, and the dispatch on the command. -/
theorem handleConnection_exec_of_request (env : Env) (authRequest : AuthRequest) (ctx : Context)
    (conn : Conn) (authenticator : Option Authenticator) (bind : Addr) (metadata : Metadata)
    (request : Request) (hneg : Negotiates env authRequest authenticator)
    (hread : env.readRequest = Except.ok request) :
    (handleConnection env authRequest ctx conn authenticator bind metadata).exec =
      { outcome := (dispatchRun env ctx conn bind metadata request).outcome
        trace := (authSeg env authRequest conn authenticator).events ++
          Event.ReadRequest conn (Except.ok request) ::
            (dispatchRun env ctx conn bind metadata request).trace
        spawned := (dispatchRun env ctx conn bind metadata request).spawned } := by
  rw [handleConnection_exec]
  have hstop := authSeg_stop_of_negotiates env authRequest conn authenticator hneg
  simp [handshakeRun, Seg.finish, hstop, commandRun, hread]

/-- C5: when the negotiation goes through, a CommandRequest with command
CONNECT is read and the response write succeeds, `handleConnection` writes a
CommandResponse with reply code success and the local address of the stream as
bind address, and then calls the handler's `NewConnection` with that stream and
with metadata whose protocol is "socks" and whose destination is the requested
destination. -/
theorem C5_connect_response_and_handoff (env : Env) (authRequest : AuthRequest) (ctx : Context)
    (conn : Conn) (authenticator : Option Authenticator) (bind : Addr) (metadata : Metadata)
    (request : Request) (hneg : Negotiates env authRequest authenticator)
    (hread : env.readRequest = Except.ok request)
    (hcommand : request.Command = CommandConnect)
    (hwrite : env.writeResponse = none) :
    ∃ pre handed,
      (handleConnection env authRequest ctx conn authenticator bind metadata).exec.trace =
        pre ++
          [Event.ReadRequest conn (Except.ok request),
            Event.WriteResponse conn
              { Version := request.Version, ReplyCode := ReplyCodeSuccess,
                Bind := env.SocksaddrFromNet conn.LocalAddr } none,
            Event.NewConnection ctx conn handed env.newConnection] ∧
      (∀ e ∈ pre, e.isWriteResponse = false ∧ e.isHandlerOp = false) ∧
      handed.Protocol = "socks" ∧ handed.Destination = request.Destination ∧
      (handleConnection env authRequest ctx conn authenticator bind metadata).exec.spawned =
        [] := by
  rw [handleConnection_exec_of_request env authRequest ctx conn authenticator bind metadata
    request hneg hread]
  refine ⟨(authSeg env authRequest conn authenticator).events, handedOff metadata request,
    ?_, ?_, rfl, rfl, ?_⟩
  · simp [dispatchRun, hcommand, hwrite]
  · intro e he
    have h := authSeg_events_kinds env authRequest conn authenticator e he
    exact ⟨h.1, h.2.1⟩
  · simp [dispatchRun, hcommand, hwrite]

theorem C5_witness :
    ∃ pre handed,
      (handleConnection (sampleEnv CommandConnect) { Version := 5, Methods := [0] }
          sampleContext sampleConn none (Addr.ip4 0x0A000001) sampleMetadata).exec.trace =
        pre ++
          [Event.ReadRequest sampleConn
              (Except.ok { Version := 5, Command := CommandConnect,
                           Destination := sampleDestination }),
            Event.WriteResponse sampleConn
              { Version := 5, ReplyCode := ReplyCodeSuccess,
                Bind := (sampleEnv CommandConnect).SocksaddrFromNet sampleConn.LocalAddr } none,
            Event.NewConnection sampleContext sampleConn handed
              (sampleEnv CommandConnect).newConnection] ∧
      (∀ e ∈ pre, e.isWriteResponse = false ∧ e.isHandlerOp = false) ∧
      handed.Protocol = "socks" ∧ handed.Destination = sampleDestination ∧
      (handleConnection (sampleEnv CommandConnect) { Version := 5, Methods := [0] }
          sampleContext sampleConn none (Addr.ip4 0x0A000001) sampleMetadata).exec.spawned =
        [] :=
  C5_connect_response_and_handoff (sampleEnv CommandConnect) { Version := 5, Methods := [0] }
    sampleContext sampleConn none (Addr.ip4 0x0A000001) sampleMetadata
    { Version := 5, Command := CommandConnect, Destination := sampleDestination }
    ⟨Or.inl (by decide), rfl, fun h => by cases h⟩ rfl rfl rfl

/-- C6: when the negotiation goes through and a CommandRequest is read whose
command is neither CONNECT nor UDP-ASSOCIATE, `handleConnection` writes a
CommandResponse with the unsupported-command reply code as its last call,
invokes no handler operation, starts no goroutine and opens no UDP socket, and
returns nil once that write succeeds. -/
theorem C6_unsupported_command_rejected (env : Env) (authRequest : AuthRequest) (ctx : Context)
    (conn : Conn) (authenticator : Option Authenticator) (bind : Addr) (metadata : Metadata)
    (request : Request) (hneg : Negotiates env authRequest authenticator)
    (hread : env.readRequest = Except.ok request)
    (hconnect : request.Command ≠ CommandConnect)
    (hassociate : request.Command ≠ CommandUDPAssociate) :
    (∃ pre bound,
      (handleConnection env authRequest ctx conn authenticator bind metadata).exec.trace =
        pre ++
          [Event.ReadRequest conn (Except.ok request),
            Event.WriteResponse conn
              { Version := request.Version, ReplyCode := ReplyCodeUnsupported, Bind := bound }
              env.writeResponse] ∧
      ∀ e ∈ pre, e.isWriteResponse = false) ∧
    (∀ e ∈ (handleConnection env authRequest ctx conn authenticator bind metadata).exec.trace,
      e.isHandlerOp = false ∧ e.isListenUDP = false) ∧
    (handleConnection env authRequest ctx conn authenticator bind metadata).exec.spawned = [] ∧
    (env.writeResponse = none →
      (handleConnection env authRequest ctx conn authenticator bind metadata).exec.outcome =
        Outcome.returned none) := by
  rw [handleConnection_exec_of_request env authRequest ctx conn authenticator bind metadata
    request hneg hread]
  have hk := authSeg_events_kinds env authRequest conn authenticator
  refine ⟨⟨(authSeg env authRequest conn authenticator).events, Socksaddr.zeroValue, ?_,
    fun e he => (hk e he).1⟩, ?_, ?_, ?_⟩
  · cases hw : env.writeResponse <;> simp [dispatchRun, hconnect, hassociate, hw]
  · intro e he
    simp only [List.mem_append, List.mem_cons] at he
    rcases he with he | he | he
    · exact ⟨(hk e he).2.1, (hk e he).2.2⟩
    · subst he
      exact ⟨rfl, rfl⟩
    · revert he
      cases hw : env.writeResponse <;> simp [dispatchRun, hconnect, hassociate, hw] <;>
        intro he <;> subst he <;> exact ⟨rfl, rfl⟩
  · cases hw : env.writeResponse <;> simp [dispatchRun, hconnect, hassociate, hw]
  · intro hw
    simp [dispatchRun, hconnect, hassociate, hw]

theorem C6_witness :
    (∃ pre bound,
      (handleConnection (sampleEnv 2) { Version := 5, Methods := [0] }
          sampleContext sampleConn none (Addr.ip4 0x0A000001) sampleMetadata).exec.trace =
        pre ++
          [Event.ReadRequest sampleConn
              (Except.ok { Version := 5, Command := 2, Destination := sampleDestination }),
            Event.WriteResponse sampleConn
              { Version := 5, ReplyCode := ReplyCodeUnsupported, Bind := bound }
              (sampleEnv 2).writeResponse] ∧
      ∀ e ∈ pre, e.isWriteResponse = false) ∧
    (∀ e ∈ (handleConnection (sampleEnv 2) { Version := 5, Methods := [0] }
          sampleContext sampleConn none (Addr.ip4 0x0A000001) sampleMetadata).exec.trace,
      e.isHandlerOp = false ∧ e.isListenUDP = false) ∧
    (handleConnection (sampleEnv 2) { Version := 5, Methods := [0] }
        sampleContext sampleConn none (Addr.ip4 0x0A000001) sampleMetadata).exec.spawned = [] ∧
    ((sampleEnv 2).writeResponse = none →
      (handleConnection (sampleEnv 2) { Version := 5, Methods := [0] }
          sampleContext sampleConn none (Addr.ip4 0x0A000001) sampleMetadata).exec.outcome =
        Outcome.returned none) :=
  C6_unsupported_command_rejected (sampleEnv 2) { Version := 5, Methods := [0] }
    sampleContext sampleConn none (Addr.ip4 0x0A000001) sampleMetadata
    { Version := 5, Command := 2, Destination := sampleDestination }
    ⟨Or.inl (by decide), rfl, fun h => by cases h⟩ rfl (by decide) (by decide)

/-- C7: when the negotiation goes through, a CommandRequest with command
UDP-ASSOCIATE is read, the relay socket opens and the response write succeeds,
`handleConnection` writes one CommandResponse, with reply code success and the
local address of the socket it just opened as bind address, and the goroutine
it starts calls the handler's `NewPacketConnection` with a channel built from
the controlling stream, that socket and the requested destination, and with
metadata whose protocol is "socks" and whose destination is the requested
destination. -/
theorem C7_associate_response_and_handoff (env : Env) (authRequest : AuthRequest)
    (ctx : Context) (conn : Conn) (authenticator : Option Authenticator) (bind : Addr)
    (metadata : Metadata) (request : Request) (udpConn : UDPConn)
    (hneg : Negotiates env authRequest authenticator)
    (hread : env.readRequest = Except.ok request)
    (hcommand : request.Command = CommandUDPAssociate)
    (hlisten : env.listenUDP = Except.ok udpConn)
    (hwrite : env.writeResponse = none) :
    ∃ pre network laddr handed rest,
      (handleConnection env authRequest ctx conn authenticator bind metadata).exec.trace =
        pre ++
          [Event.ReadRequest conn (Except.ok request),
            Event.ListenUDP network laddr (Except.ok udpConn),
            Event.WriteResponse conn
              { Version := request.Version, ReplyCode := ReplyCodeSuccess,
                Bind := env.SocksaddrFromNet udpConn.LocalAddr } none,
            Event.Go,
            Event.CopyDiscard conn env.copyDiscard,
            Event.Close udpConn] ∧
      (∀ e ∈ pre, e.isWriteResponse = false ∧ e.isHandlerOp = false ∧ e.isListenUDP = false) ∧
      (handleConnection env authRequest ctx conn authenticator bind metadata).exec.spawned =
        Event.NewPacketConnection ctx (NewAssociatePacketConn conn udpConn request.Destination)
          handed env.newPacketConnection :: rest ∧
      (NewAssociatePacketConn conn udpConn request.Destination).conn = conn ∧
      (NewAssociatePacketConn conn udpConn request.Destination).udpConn = udpConn ∧
      (NewAssociatePacketConn conn udpConn request.Destination).destination =
        request.Destination ∧
      handed.Protocol = "socks" ∧ handed.Destination = request.Destination := by
  rw [handleConnection_exec_of_request env authRequest ctx conn authenticator bind metadata
    request hneg hread]
  have hne : CommandUDPAssociate ≠ CommandConnect := by decide
  refine ⟨(authSeg env authRequest conn authenticator).events, relayNetwork bind,
    { IP := bind, Port := 0 }, handedOff metadata request,
    (match env.newPacketConnection with
     | some e => [Event.HandleError e]
     | none => []), ?_,
    authSeg_events_kinds env authRequest conn authenticator, ?_, rfl, rfl, rfl, rfl, rfl⟩
  · simp [dispatchRun, hne, hcommand, hlisten, hwrite, listenEvent]
  · simp [dispatchRun, hne, hcommand, hlisten, hwrite, associateEvents]

theorem C7_witness :
    ∃ pre network laddr handed rest,
      (handleConnection (sampleEnv CommandUDPAssociate) { Version := 5, Methods := [0] }
          sampleContext sampleConn none (Addr.ip4 0x0A000001) sampleMetadata).exec.trace =
        pre ++
          [Event.ReadRequest sampleConn
              (Except.ok { Version := 5, Command := CommandUDPAssociate,
                           Destination := sampleDestination }),
            Event.ListenUDP network laddr (Except.ok sampleUDPConn),
            Event.WriteResponse sampleConn
              { Version := 5, ReplyCode := ReplyCodeSuccess,
                Bind := (sampleEnv CommandUDPAssociate).SocksaddrFromNet
                  sampleUDPConn.LocalAddr } none,
            Event.Go,
            Event.CopyDiscard sampleConn (sampleEnv CommandUDPAssociate).copyDiscard,
            Event.Close sampleUDPConn] ∧
      (∀ e ∈ pre, e.isWriteResponse = false ∧ e.isHandlerOp = false ∧ e.isListenUDP = false) ∧
      (handleConnection (sampleEnv CommandUDPAssociate) { Version := 5, Methods := [0] }
          sampleContext sampleConn none (Addr.ip4 0x0A000001) sampleMetadata).exec.spawned =
        Event.NewPacketConnection sampleContext
          (NewAssociatePacketConn sampleConn sampleUDPConn sampleDestination)
          handed (sampleEnv CommandUDPAssociate).newPacketConnection :: rest ∧
      (NewAssociatePacketConn sampleConn sampleUDPConn sampleDestination).conn = sampleConn ∧
      (NewAssociatePacketConn sampleConn sampleUDPConn sampleDestination).udpConn =
        sampleUDPConn ∧
      (NewAssociatePacketConn sampleConn sampleUDPConn sampleDestination).destination =
        sampleDestination ∧
      handed.Protocol = "socks" ∧ handed.Destination = sampleDestination :=
  C7_associate_response_and_handoff (sampleEnv CommandUDPAssociate)
    { Version := 5, Methods := [0] } sampleContext sampleConn none (Addr.ip4 0x0A000001)
    sampleMetadata { Version := 5, Command := CommandUDPAssociate,
                     Destination := sampleDestination } sampleUDPConn
    ⟨Or.inl (by decide), rfl, fun h => by cases h⟩ rfl rfl rfl rfl

/-- C8: on UDP-ASSOCIATE the relay socket is requested once, on the network
"udp4" if and only if the bind address is an IPv4 address and on the network
"udp" if and only if it is not, and in both cases on the bind address with
port 0. -/
theorem C8_relay_network_follows_bind_address (env : Env) (authRequest : AuthRequest)
    (ctx : Context) (conn : Conn) (authenticator : Option Authenticator) (bind : Addr)
    (metadata : Metadata) (request : Request)
    (hneg : Negotiates env authRequest authenticator)
    (hread : env.readRequest = Except.ok request)
    (hcommand : request.Command = CommandUDPAssociate) :
    ∃ network,
      (handleConnection env authRequest ctx conn authenticator bind metadata).exec.trace.filter
          Event.isListenUDP =
        [Event.ListenUDP network { IP := bind, Port := 0 } env.listenUDP] ∧
      (network = "udp4" ↔ bind.Is4 = true) ∧
      (network = "udp" ↔ bind.Is4 = false) := by
  rw [handleConnection_exec_of_request env authRequest ctx conn authenticator bind metadata
    request hneg hread]
  have hne : CommandUDPAssociate ≠ CommandConnect := by decide
  have hpre : (authSeg env authRequest conn authenticator).events.filter Event.isListenUDP =
      [] :=
    List.filter_eq_nil_iff.mpr fun e he => by
      simp [(authSeg_events_kinds env authRequest conn authenticator e he).2.2]
  refine ⟨relayNetwork bind, ?_, ?_, ?_⟩
  · simp only [List.filter_append, hpre, List.nil_append, dispatchRun, hne, hcommand, if_true,
      if_false]
    cases hl : env.listenUDP with
    | error e => simp [listenEvent, Event.isListenUDP, hl]
    | ok u =>
      cases hw : env.writeResponse <;> simp [listenEvent, Event.isListenUDP, hl]
  · cases hb : bind.Is4 <;> simp [relayNetwork, hb]
  · cases hb : bind.Is4 <;> simp [relayNetwork, hb]

theorem C8_witness :
    ∃ network,
      (handleConnection (sampleEnv CommandUDPAssociate) { Version := 5, Methods := [0] }
          sampleContext sampleConn none (Addr.ip6 1 "") sampleMetadata).exec.trace.filter
          Event.isListenUDP =
        [Event.ListenUDP network { IP := Addr.ip6 1 "", Port := 0 }
          (sampleEnv CommandUDPAssociate).listenUDP] ∧
      (network = "udp4" ↔ (Addr.ip6 1 "").Is4 = true) ∧
      (network = "udp" ↔ (Addr.ip6 1 "").Is4 = false) :=
  C8_relay_network_follows_bind_address (sampleEnv CommandUDPAssociate)
    { Version := 5, Methods := [0] } sampleContext sampleConn none (Addr.ip6 1 "")
    sampleMetadata { Version := 5, Command := CommandUDPAssociate,
                     Destination := sampleDestination }
    ⟨Or.inl (by decide), rfl, fun h => by cases h⟩ rfl rfl

/-- C9: when opening the relay socket fails on the UDP-ASSOCIATE path,
`handleConnection` returns that error as it is, the failed `net.ListenUDP` is
its last call, no CommandResponse is written, no handler operation is invoked
and no goroutine is started. -/
theorem C9_listen_failure_aborts_before_response (env : Env) (authRequest : AuthRequest)
    (ctx : Context) (conn : Conn) (authenticator : Option Authenticator) (bind : Addr)
    (metadata : Metadata) (request : Request) (err : Error)
    (hneg : Negotiates env authRequest authenticator)
    (hread : env.readRequest = Except.ok request)
    (hcommand : request.Command = CommandUDPAssociate)
    (hlisten : env.listenUDP = Except.error err) :
    (handleConnection env authRequest ctx conn authenticator bind metadata).exec.outcome =
        Outcome.returned (some err) ∧
      (∃ pre network laddr,
        (handleConnection env authRequest ctx conn authenticator bind metadata).exec.trace =
          pre ++ [Event.ReadRequest conn (Except.ok request),
            Event.ListenUDP network laddr (Except.error err)]) ∧
      (∀ e ∈ (handleConnection env authRequest ctx conn authenticator bind metadata).exec.trace,
        e.isWriteResponse = false ∧ e.isHandlerOp = false) ∧
      (handleConnection env authRequest ctx conn authenticator bind metadata).exec.spawned =
        [] := by
  rw [handleConnection_exec_of_request env authRequest ctx conn authenticator bind metadata
    request hneg hread]
  have hne : CommandUDPAssociate ≠ CommandConnect := by decide
  have hd : dispatchRun env ctx conn bind metadata request =
      { outcome := Outcome.returned (some err)
        trace := [Event.ListenUDP (relayNetwork bind) { IP := bind, Port := 0 }
          (Except.error err)]
        spawned := [] } := by
    simp [dispatchRun, hne, hcommand, hlisten, listenEvent]
  rw [hd]
  refine ⟨rfl, ⟨_, _, _, rfl⟩, ?_, rfl⟩
  intro e he
  simp only [List.mem_append, List.mem_cons, List.mem_singleton, List.not_mem_nil,
    or_false] at he
  rcases he with he | he | he
  · have h := authSeg_events_kinds env authRequest conn authenticator e he
    exact ⟨h.1, h.2.1⟩
  · subst he
    exact ⟨rfl, rfl⟩
  · subst he
    exact ⟨rfl, rfl⟩

theorem C9_witness :
    (handleConnection
        { sampleEnv CommandUDPAssociate with
          listenUDP := Except.error (Error.raw "listen udp4 10.0.0.1:0: too many open files") }
        { Version := 5, Methods := [0] } sampleContext sampleConn none (Addr.ip4 0x0A000001)
        sampleMetadata).exec.outcome =
      Outcome.returned (some (Error.raw "listen udp4 10.0.0.1:0: too many open files")) :=
  (C9_listen_failure_aborts_before_response
    { sampleEnv CommandUDPAssociate with
      listenUDP := Except.error (Error.raw "listen udp4 10.0.0.1:0: too many open files") }
    { Version := 5, Methods := [0] } sampleContext sampleConn none (Addr.ip4 0x0A000001)
    sampleMetadata { Version := 5, Command := CommandUDPAssociate,
                     Destination := sampleDestination }
    (Error.raw "listen udp4 10.0.0.1:0: too many open files")
    ⟨Or.inl (by decide), rfl, fun h => by cases h⟩ rfl rfl rfl).1

/-! ## Codec failures -/

/-- A failed codec call is a stream operation. -/
theorem isStreamOp_of_failure (e : Event) (p : Step × Error) (h : e.failure = some p) :
    e.isStreamOp = true := by
  cases e <;> simp_all [Event.failure, Event.isStreamOp]

/-- A cause message belongs to one step only. -/
theorem Step.causes_disjoint (s t : Step) (message : String) (hs : message ∈ s.causes)
    (ht : message ∈ t.causes) : t = s := by
  cases s <;> cases t <;> simp_all [Step.causes]

/-- What `AbortsCleanly` says about every way of cutting the calls at a failed
codec call. -/
theorem AbortsCleanly.at_failure (outcome : Outcome) (spawned : List Event) :
    ∀ (trace pre post : List Event) (ev : Event) (step : Step) (err : Error),
      AbortsCleanly outcome spawned trace → trace = pre ++ ev :: post →
      ev.failure = some (step, err) →
      (∀ e ∈ post, e.isStreamOp = false ∧ e.isHandlerOp = false) ∧
        (∀ e ∈ pre, e.isHandlerOp = false) ∧ spawned = [] ∧
        ∃ message ∈ step.causes, outcome = Outcome.returned (some (E.Cause err message)) := by
  intro trace
  induction trace with
  | nil =>
    intro pre post ev step err _ hsplit
    simp at hsplit
  | cons e rest ih =>
    intro pre post ev step err hclean hsplit hfail
    cases pre with
    | nil =>
      simp only [List.nil_append, List.cons.injEq] at hsplit
      obtain ⟨rfl, rfl⟩ := hsplit
      simp only [AbortsCleanly, hfail] at hclean
      exact ⟨hclean.1, by simp, hclean.2.1, hclean.2.2⟩
    | cons x pre' =>
      simp only [List.cons_append, List.cons.injEq] at hsplit
      obtain ⟨hx, hrest⟩ := hsplit
      subst hx
      have hmem : ev ∈ rest := by
        rw [hrest]
        simp
      cases he : e.failure with
      | some p =>
        obtain ⟨s, e'⟩ := p
        simp only [AbortsCleanly, he] at hclean
        have h1 := (hclean.1 ev hmem).1
        rw [isStreamOp_of_failure ev _ hfail] at h1
        cases h1
      | none =>
        simp only [AbortsCleanly, he] at hclean
        obtain ⟨h1, h2, h3, h4⟩ := ih pre' post ev step err hclean.2 hrest hfail
        refine ⟨h1, ?_, h3, h4⟩
        intro y hy
        simp only [List.mem_cons] at hy
        rcases hy with rfl | hy
        · cases hh : y.isHandlerOp with
          | false => rfl
          | true =>
            have := hclean.1 hh ev hmem
            rw [hfail] at this
            cases this
        · exact h2 y hy

/-- Calls that neither fail nor reach the handler do not matter for a clean
abort of what follows them. -/
theorem AbortsCleanly.append (outcome : Outcome) (spawned : List Event) (front back : List Event)
    (hfront : ∀ e ∈ front, e.failure = none ∧ e.isHandlerOp = false)
    (hback : AbortsCleanly outcome spawned back) :
    AbortsCleanly outcome spawned (front ++ back) := by
  induction front with
  | nil => exact hback
  | cons e rest ih =>
    have he := hfront e (by simp)
    simp only [List.cons_append, AbortsCleanly, he.1]
    refine ⟨by simp [he.2], ih fun x hx => hfront x (by simp [hx])⟩

/-- The command exchange aborts cleanly. -/
theorem commandRun_abortsCleanly (env : Env) (ctx : Context) (conn : Conn) (bind : Addr)
    (metadata : Metadata) :
    AbortsCleanly (commandRun env ctx conn bind metadata).outcome
      (commandRun env ctx conn bind metadata).spawned
      (commandRun env ctx conn bind metadata).trace := by
  simp only [commandRun, dispatchRun, Seg.finish_continue, listenEvent]
  repeat' split
  all_goals simp [AbortsCleanly, Event.failure, Event.isStreamOp, Event.isHandlerOp, Step.causes]

/-- One clean stretch after another is a clean stretch. -/
theorem Seg.Clean.andThen (s₁ s₂ : Seg) (h₁ : s₁.Clean) (h₂ : s₂.Clean) :
    (s₁.andThen s₂).Clean := by
  unfold Seg.andThen
  cases hs : s₁.stop with
  | some o => exact h₁
  | none =>
    unfold Seg.Clean at h₁ h₂ ⊢
    rw [hs] at h₁
    simp only at h₁ ⊢
    cases hs₂ : s₂.stop with
    | none =>
      rw [hs₂] at h₂
      intro e he
      rcases List.mem_append.mp he with he | he
      · exact h₁ e he
      · exact h₂ e he
    | some o =>
      rw [hs₂] at h₂
      exact AbortsCleanly.append _ _ _ _ h₁ h₂

theorem rejectSeg_clean (env : Env) (authRequest : AuthRequest) (conn : Conn)
    (authenticator : Option Authenticator) :
    (rejectSeg env authRequest conn authenticator).Clean := by
  unfold rejectSeg
  split
  · simp [Seg.Clean]
  · cases hn : env.writeNoAcceptedMethods <;>
      simp [Seg.Clean, abortWith, AbortsCleanly, Event.failure, Event.isHandlerOp, Step.causes]

theorem chooseSeg_clean (env : Env) (authRequest : AuthRequest) (conn : Conn)
    (authenticator : Option Authenticator) :
    (chooseSeg env authRequest conn authenticator).Clean := by
  unfold chooseSeg
  cases ha : env.writeAuthResponse <;>
    simp [Seg.Clean, abortWith, AbortsCleanly, Event.failure, Event.isHandlerOp, Step.causes]

theorem userPassSeg_clean (env : Env) (conn : Conn) (authenticator : Option Authenticator) :
    (userPassSeg env conn authenticator).Clean := by
  cases authenticator with
  | none => simp [userPassSeg, Seg.Clean]
  | some a =>
    cases hr : env.readUsernamePasswordAuthRequest with
    | error e =>
      simp [userPassSeg, hr, Seg.Clean, AbortsCleanly, Event.failure, Step.causes]
    | ok r =>
      cases hw : env.writeUsernamePasswordAuthResponse <;>
        simp [userPassSeg, hr, hw, Seg.Clean, abortWith, AbortsCleanly, Event.failure,
          Event.isHandlerOp, Event.isStreamOp, Step.causes]

/-- The negotiation either goes through without a failed call and without a
handler operation, or ends the function with a clean abort. -/
theorem authSeg_clean (env : Env) (authRequest : AuthRequest) (conn : Conn)
    (authenticator : Option Authenticator) :
    (authSeg env authRequest conn authenticator).Clean :=
  Seg.Clean.andThen _ _ (rejectSeg_clean env authRequest conn authenticator)
    (Seg.Clean.andThen _ _ (chooseSeg_clean env authRequest conn authenticator)
      (userPassSeg_clean env conn authenticator))

/-- Every run of `handleConnection` aborts cleanly. -/
theorem handshakeRun_abortsCleanly (env : Env) (authRequest : AuthRequest) (ctx : Context)
    (conn : Conn) (authenticator : Option Authenticator) (bind : Addr) (metadata : Metadata) :
    AbortsCleanly (handshakeRun env authRequest ctx conn authenticator bind metadata).outcome
      (handshakeRun env authRequest ctx conn authenticator bind metadata).spawned
      (handshakeRun env authRequest ctx conn authenticator bind metadata).trace := by
  have hauth := authSeg_clean env authRequest conn authenticator
  unfold Seg.Clean at hauth
  have hcmd := commandRun_abortsCleanly env ctx conn bind metadata
  unfold handshakeRun Seg.finish
  cases hs : (authSeg env authRequest conn authenticator).stop with
  | none =>
    rw [hs] at hauth
    exact AbortsCleanly.append _ _ _ _ hauth hcmd
  | some o =>
    rw [hs] at hauth
    exact hauth

/-- Every run of `HandleConnection` aborts cleanly. -/
theorem connectionRun_abortsCleanly (env : Env) (ctx : Context) (conn : Conn)
    (authenticator : Option Authenticator) (bind : Addr) (metadata : Metadata) :
    AbortsCleanly (connectionRun env ctx conn authenticator bind metadata).outcome
      (connectionRun env ctx conn authenticator bind metadata).spawned
      (connectionRun env ctx conn authenticator bind metadata).trace := by
  unfold connectionRun
  cases env.readAuthRequest with
  | error e => simp [AbortsCleanly, Event.failure, Step.causes]
  | ok authRequest =>
    simp only [Seg.finish_continue]
    exact AbortsCleanly.append _ _ _ _ (by simp [Event.failure, Event.isHandlerOp])
      (handshakeRun_abortsCleanly env authRequest ctx conn authenticator bind metadata)

/-- C10: whenever a codec call of `HandleConnection` fails (the read of the
AuthRequest, a write of an AuthResponse, the read of the
UsernamePasswordAuthRequest, the write of the UsernamePasswordAuthResponse, the
read of the CommandRequest or the write of the CommandResponse), the run makes
no stream read or write and no handler call after it, has made no handler call
before it, starts no goroutine, and returns the error of the codec wrapped by
`E.Cause` with a message that belongs to the failing step and to no other. -/
theorem C10_codec_failure_aborts_with_cause (env : Env) (ctx : Context) (conn : Conn)
    (authenticator : Option Authenticator) (bind : Addr) (metadata : Metadata)
    (pre post : List Event) (ev : Event) (step : Step) (err : Error)
    (hsplit : (HandleConnection env ctx conn authenticator bind metadata).exec.trace =
      pre ++ ev :: post)
    (hfail : ev.failure = some (step, err)) :
    (∀ e ∈ post, e.isStreamOp = false ∧ e.isHandlerOp = false) ∧
      (∀ e ∈ pre, e.isHandlerOp = false) ∧
      (HandleConnection env ctx conn authenticator bind metadata).exec.spawned = [] ∧
      ∃ message ∈ step.causes,
        (HandleConnection env ctx conn authenticator bind metadata).exec.outcome =
          Outcome.returned (some (E.Cause err message)) ∧
        ∀ other : Step, message ∈ other.causes → other = step := by
  rw [HandleConnection_exec] at hsplit ⊢
  obtain ⟨h1, h2, h3, message, hm, ho⟩ :=
    AbortsCleanly.at_failure _ _ _ pre post ev step err
      (connectionRun_abortsCleanly env ctx conn authenticator bind metadata) hsplit hfail
  exact ⟨h1, h2, h3, message, hm, ho, fun other hother =>
    Step.causes_disjoint step other message hm hother⟩

theorem C10_witness :
    (∀ e ∈ ([] : List Event), e.isStreamOp = false ∧ e.isHandlerOp = false) ∧
      (∀ e ∈ [Event.ReadAuthRequest sampleConn (Except.ok { Version := 5, Methods := [0, 2] }),
          Event.WriteAuthResponse sampleConn { Version := 5, Method := AuthTypeNotRequired }
            none],
        e.isHandlerOp = false) ∧
      (HandleConnection
          { sampleEnv CommandConnect with readRequest := Except.error (Error.raw "EOF") }
          sampleContext sampleConn none (Addr.ip4 0x0A000001) sampleMetadata).exec.spawned =
        [] ∧
      ∃ message ∈ Step.readCommandRequest.causes,
        (HandleConnection
            { sampleEnv CommandConnect with readRequest := Except.error (Error.raw "EOF") }
            sampleContext sampleConn none (Addr.ip4 0x0A000001) sampleMetadata).exec.outcome =
          Outcome.returned (some (E.Cause (Error.raw "EOF") message)) ∧
        ∀ other : Step, message ∈ other.causes → other = Step.readCommandRequest :=
  C10_codec_failure_aborts_with_cause
    { sampleEnv CommandConnect with readRequest := Except.error (Error.raw "EOF") }
    sampleContext sampleConn none (Addr.ip4 0x0A000001) sampleMetadata
    [Event.ReadAuthRequest sampleConn (Except.ok { Version := 5, Methods := [0, 2] }),
      Event.WriteAuthResponse sampleConn { Version := 5, Method := AuthTypeNotRequired } none]
    [] (Event.ReadRequest sampleConn (Except.error (Error.raw "EOF")))
    Step.readCommandRequest (Error.raw "EOF") rfl rfl

/-! ## The dispatch, path by path -/

theorem associate_ne_connect : CommandUDPAssociate ≠ CommandConnect := by decide

/-- CONNECT, the response write fails (lines 118-125). -/
theorem dispatchRun_connect_unwritten (env : Env) (ctx : Context) (conn : Conn) (bind : Addr)
    (metadata : Metadata) (request : Request) (e : Error)
    (hcommand : request.Command = CommandConnect) (hwrite : env.writeResponse = some e) :
    dispatchRun env ctx conn bind metadata request =
      { outcome := Outcome.returned (some (E.Cause e "write socks response"))
        trace := [Event.WriteResponse conn
          { Version := request.Version, ReplyCode := ReplyCodeSuccess,
            Bind := env.SocksaddrFromNet conn.LocalAddr } (some e)]
        spawned := [] } := by
  simp [dispatchRun, hcommand, hwrite]

/-- CONNECT, the response is written (lines 118-128). -/
theorem dispatchRun_connect_written (env : Env) (ctx : Context) (conn : Conn) (bind : Addr)
    (metadata : Metadata) (request : Request)
    (hcommand : request.Command = CommandConnect) (hwrite : env.writeResponse = none) :
    dispatchRun env ctx conn bind metadata request =
      { outcome := Outcome.returned env.newConnection
        trace := [Event.WriteResponse conn
            { Version := request.Version, ReplyCode := ReplyCodeSuccess,
              Bind := env.SocksaddrFromNet conn.LocalAddr } none,
          Event.NewConnection ctx conn (handedOff metadata request) env.newConnection]
        spawned := [] } := by
  simp [dispatchRun, hcommand, hwrite]

/-- UDP-ASSOCIATE, the relay socket does not open (lines 130-137). -/
theorem dispatchRun_associate_unopened (env : Env) (ctx : Context) (conn : Conn) (bind : Addr)
    (metadata : Metadata) (request : Request) (e : Error)
    (hcommand : request.Command = CommandUDPAssociate)
    (hlisten : env.listenUDP = Except.error e) :
    dispatchRun env ctx conn bind metadata request =
      { outcome := Outcome.returned (some e)
        trace := [Event.ListenUDP (relayNetwork bind) { IP := bind, Port := 0 }
          (Except.error e)]
        spawned := [] } := by
  simp [dispatchRun, hcommand, hlisten, associate_ne_connect, listenEvent]

/-- UDP-ASSOCIATE, the response write fails (lines 130-146). -/
theorem dispatchRun_associate_unwritten (env : Env) (ctx : Context) (conn : Conn) (bind : Addr)
    (metadata : Metadata) (request : Request) (udpConn : UDPConn) (e : Error)
    (hcommand : request.Command = CommandUDPAssociate)
    (hlisten : env.listenUDP = Except.ok udpConn) (hwrite : env.writeResponse = some e) :
    dispatchRun env ctx conn bind metadata request =
      { outcome := Outcome.returned (some (E.Cause e "write socks response"))
        trace := [Event.ListenUDP (relayNetwork bind) { IP := bind, Port := 0 }
            (Except.ok udpConn),
          Event.WriteResponse conn
            { Version := request.Version, ReplyCode := ReplyCodeSuccess,
              Bind := env.SocksaddrFromNet udpConn.LocalAddr } (some e),
          Event.Close udpConn]
        spawned := [] } := by
  simp [dispatchRun, hcommand, hlisten, hwrite, associate_ne_connect, listenEvent]

/-- UDP-ASSOCIATE, the response is written (lines 130-155). -/
theorem dispatchRun_associate_written (env : Env) (ctx : Context) (conn : Conn) (bind : Addr)
    (metadata : Metadata) (request : Request) (udpConn : UDPConn)
    (hcommand : request.Command = CommandUDPAssociate)
    (hlisten : env.listenUDP = Except.ok udpConn) (hwrite : env.writeResponse = none) :
    dispatchRun env ctx conn bind metadata request =
      { outcome := Outcome.returned env.copyDiscard.2
        trace := [Event.ListenUDP (relayNetwork bind) { IP := bind, Port := 0 }
            (Except.ok udpConn),
          Event.WriteResponse conn
            { Version := request.Version, ReplyCode := ReplyCodeSuccess,
              Bind := env.SocksaddrFromNet udpConn.LocalAddr } none,
          Event.Go, Event.CopyDiscard conn env.copyDiscard, Event.Close udpConn]
        spawned := associateEvents env ctx conn udpConn request metadata } := by
  simp [dispatchRun, hcommand, hlisten, hwrite, associate_ne_connect, listenEvent]

/-- Any other command (lines 157-165). -/
theorem dispatchRun_unsupported (env : Env) (ctx : Context) (conn : Conn) (bind : Addr)
    (metadata : Metadata) (request : Request)
    (hconnect : request.Command ≠ CommandConnect)
    (hassociate : request.Command ≠ CommandUDPAssociate) :
    dispatchRun env ctx conn bind metadata request =
      { outcome := match env.writeResponse with
          | some e => Outcome.returned (some (E.Cause e "write response"))
          | none => Outcome.returned none
        trace := [Event.WriteResponse conn
          { Version := request.Version, ReplyCode := ReplyCodeUnsupported,
            Bind := Socksaddr.zeroValue } env.writeResponse]
        spawned := [] } := by
  cases hw : env.writeResponse <;> simp [dispatchRun, hconnect, hassociate, hw]

/-- The paths of the dispatch: every run of it is one of the six above. -/
theorem dispatchRun_paths (env : Env) (request : Request) :
    (request.Command = CommandConnect ∧ ∃ e, env.writeResponse = some e) ∨
    (request.Command = CommandConnect ∧ env.writeResponse = none) ∨
    (request.Command = CommandUDPAssociate ∧ ∃ e, env.listenUDP = Except.error e) ∨
    (request.Command = CommandUDPAssociate ∧
      ∃ udpConn e, env.listenUDP = Except.ok udpConn ∧ env.writeResponse = some e) ∨
    (request.Command = CommandUDPAssociate ∧
      ∃ udpConn, env.listenUDP = Except.ok udpConn ∧ env.writeResponse = none) ∨
    (request.Command ≠ CommandConnect ∧ request.Command ≠ CommandUDPAssociate) := by
  by_cases h1 : request.Command = CommandConnect
  · cases hw : env.writeResponse with
    | some e => exact Or.inl ⟨h1, e, rfl⟩
    | none => exact Or.inr (Or.inl ⟨h1, rfl⟩)
  · by_cases h2 : request.Command = CommandUDPAssociate
    · cases hl : env.listenUDP with
      | error e => exact Or.inr (Or.inr (Or.inl ⟨h2, e, rfl⟩))
      | ok u =>
        cases hw : env.writeResponse with
        | some e => exact Or.inr (Or.inr (Or.inr (Or.inl ⟨h2, u, e, rfl, rfl⟩)))
        | none => exact Or.inr (Or.inr (Or.inr (Or.inr (Or.inl ⟨h2, u, rfl, rfl⟩))))
    · exact Or.inr (Or.inr (Or.inr (Or.inr (Or.inr ⟨h1, h2⟩))))

/-! ## Order and number of the responses -/

/-- A cut of two joined lists at an element that is not in the first list
falls in the second list. -/
theorem cut_in_second {α : Type} (front back pre post : List α) (x : α)
    (h : front ++ back = pre ++ x :: post) (hx : x ∉ front) :
    ∃ mid, pre = front ++ mid ∧ back = mid ++ x :: post := by
  rcases List.append_eq_append_iff.mp h with ⟨mid, hpre, hback⟩ | ⟨c, hfront, hcut⟩
  · exact ⟨mid, hpre, hback⟩
  · cases c with
    | nil =>
      simp only [List.nil_append, List.append_nil] at hcut hfront
      exact ⟨[], by simp [hfront], hcut.symm⟩
    | cons y ys =>
      simp only [List.cons_append, List.cons.injEq] at hcut
      exact absurd (by rw [hfront, hcut.1]; simp) hx

/-- A stretch made of two goes through only if both do. -/
theorem Seg.andThen_stop_none (s₁ s₂ : Seg) (h : (s₁.andThen s₂).stop = none) :
    s₁.stop = none ∧ s₂.stop = none := by
  unfold Seg.andThen at h
  cases hs : s₁.stop with
  | some o =>
    rw [hs] at h
    simp only at h
    rw [hs] at h
    cases h
  | none =>
    rw [hs] at h
    exact ⟨rfl, h⟩

/-- A negotiation that does not end the function made no failing codec call. -/
theorem negotiates_of_authSeg_stop (env : Env) (authRequest : AuthRequest) (conn : Conn)
    (authenticator : Option Authenticator)
    (h : (authSeg env authRequest conn authenticator).stop = none) :
    Negotiates env authRequest authenticator := by
  obtain ⟨h1, h23⟩ := Seg.andThen_stop_none _ _ h
  obtain ⟨h2, h3⟩ := Seg.andThen_stop_none _ _ h23
  refine ⟨?_, ?_, ?_⟩
  · unfold rejectSeg at h1
    cases hc : common.Contains authRequest.Methods (requiredMethod authenticator) with
    | true => exact Or.inl rfl
    | false =>
      right
      cases hn : env.writeNoAcceptedMethods with
      | none => rfl
      | some e => simp [hc, hn, abortWith] at h1
  · cases ha : env.writeAuthResponse with
    | none => rfl
    | some e => simp [chooseSeg, ha, abortWith] at h2
  · intro hsome
    cases authenticator with
    | none => cases hsome
    | some a =>
      cases hr : env.readUsernamePasswordAuthRequest with
      | error e => simp [userPassSeg, hr] at h3
      | ok r =>
        cases hw : env.writeUsernamePasswordAuthResponse with
        | none => exact ⟨⟨r, rfl⟩, rfl⟩
        | some e => simp [userPassSeg, hr, hw, abortWith] at h3

/-- The two ways a run of `handleConnection` goes: it ends in the negotiation,
or the negotiation goes through and the command exchange follows. -/
theorem handshakeRun_cases (env : Env) (authRequest : AuthRequest) (ctx : Context) (conn : Conn)
    (authenticator : Option Authenticator) (bind : Addr) (metadata : Metadata) :
    (∃ o, (authSeg env authRequest conn authenticator).stop = some o ∧
        handshakeRun env authRequest ctx conn authenticator bind metadata =
          { outcome := o, trace := (authSeg env authRequest conn authenticator).events,
            spawned := [] }) ∨
      (Negotiates env authRequest authenticator ∧
        handshakeRun env authRequest ctx conn authenticator bind metadata =
          { outcome := (commandRun env ctx conn bind metadata).outcome
            trace := (authSeg env authRequest conn authenticator).events ++
              (commandRun env ctx conn bind metadata).trace
            spawned := (commandRun env ctx conn bind metadata).spawned }) := by
  cases hs : (authSeg env authRequest conn authenticator).stop with
  | some o => exact Or.inl ⟨o, rfl, by simp [handshakeRun, Seg.finish, hs]⟩
  | none =>
    exact Or.inr ⟨negotiates_of_authSeg_stop env authRequest conn authenticator hs,
      by simp [handshakeRun, Seg.finish, hs]⟩

/-- The responses of a negotiation that went through. -/
theorem authSeg_written_of_negotiates (env : Env) (authRequest : AuthRequest) (conn : Conn)
    (authenticator : Option Authenticator) (h : Negotiates env authRequest authenticator) :
    Event.WriteAuthResponse conn
        { Version := authRequest.Version, Method := requiredMethod authenticator } none ∈
      (authSeg env authRequest conn authenticator).events ∧
    (authenticator.isSome = true →
      ∃ status, Event.WriteUsernamePasswordAuthResponse conn { Status := status } none ∈
        (authSeg env authRequest conn authenticator).events) := by
  obtain ⟨h1, h2, h3⟩ := h
  rw [authSeg_of_written env authRequest conn authenticator h1 h2]
  refine ⟨by simp, ?_⟩
  intro hsome
  cases authenticator with
  | none => cases hsome
  | some a =>
    obtain ⟨⟨r, hr⟩, hw⟩ := h3 rfl
    exact ⟨statusOf (a.Verify r.Username r.Password), by simp [userPassSeg, hr, hw]⟩

/-- C11: in every run of `handleConnection`, whichever codec calls fail, a
CommandResponse write comes after the successful write of the AuthResponse
selecting the required method and, when an authenticator is configured (so
that username/password is the required method), after the successful write of
the UsernamePasswordAuthResponse; no AuthResponse and no
UsernamePasswordAuthResponse is written after it. -/
theorem C11_command_response_after_auth_responses (env : Env) (authRequest : AuthRequest)
    (ctx : Context) (conn : Conn) (authenticator : Option Authenticator) (bind : Addr)
    (metadata : Metadata) (pre post : List Event) (ev : Event)
    (hsplit : (handleConnection env authRequest ctx conn authenticator bind metadata).exec.trace =
      pre ++ ev :: post)
    (hev : ev.isWriteResponse = true) :
    Event.WriteAuthResponse conn
        { Version := authRequest.Version
          Method := if authenticator.isNone then AuthTypeNotRequired
            else AuthTypeUsernamePassword }
        none ∈ pre ∧
      ((if authenticator.isNone then AuthTypeNotRequired else AuthTypeUsernamePassword) =
          AuthTypeUsernamePassword →
        ∃ status, Event.WriteUsernamePasswordAuthResponse conn { Status := status } none ∈ pre) ∧
      ∀ e ∈ post, e.isWriteAuthResponse = false ∧
        e.isWriteUsernamePasswordAuthResponse = false := by
  rw [handleConnection_exec] at hsplit
  have hkinds := authSeg_events_kinds env authRequest conn authenticator
  have hnotin : ev ∉ (authSeg env authRequest conn authenticator).events := by
    intro hmem
    have := (hkinds ev hmem).1
    rw [hev] at this
    cases this
  rcases handshakeRun_cases env authRequest ctx conn authenticator bind metadata with
    ⟨o, _, hrun⟩ | ⟨hneg, hrun⟩
  · rw [hrun] at hsplit
    simp only at hsplit
    exact absurd (by rw [hsplit]; simp) hnotin
  · rw [hrun] at hsplit
    simp only at hsplit
    obtain ⟨mid, hpre, hcmd⟩ := cut_in_second _ _ _ _ _ hsplit hnotin
    obtain ⟨hw1, hw2⟩ := authSeg_written_of_negotiates env authRequest conn authenticator hneg
    refine ⟨?_, ?_, ?_⟩
    · rw [hpre]
      exact List.mem_append_left _ hw1
    · intro hreq
      have hsome : authenticator.isSome = true := by
        cases authenticator with
        | none => exact absurd hreq (by decide)
        | some a => rfl
      obtain ⟨status, hs⟩ := hw2 hsome
      exact ⟨status, by rw [hpre]; exact List.mem_append_left _ hs⟩
    · intro e he
      have hk := commandRun_trace_kinds env ctx conn bind metadata e
        (by rw [hcmd]; simp [he])
      exact ⟨hk.1, hk.2.1⟩

theorem C11_witness :
    Event.WriteAuthResponse sampleConn
        { Version := 5
          Method := if (some sampleAuthenticator).isNone then AuthTypeNotRequired
            else AuthTypeUsernamePassword }
        none ∈
        [Event.WriteAuthResponse sampleConn { Version := 5, Method := AuthTypeUsernamePassword }
            none,
          Event.ReadUsernamePasswordAuthRequest sampleConn
            (Except.ok { Username := "user", Password := "secret" }),
          Event.Verify "user" "secret" true,
          Event.WriteUsernamePasswordAuthResponse sampleConn
            { Status := UsernamePasswordStatusSuccess } none,
          Event.ReadRequest sampleConn
            (Except.ok { Version := 5, Command := CommandConnect,
                         Destination := sampleDestination })] ∧
      ((if (some sampleAuthenticator).isNone then AuthTypeNotRequired
          else AuthTypeUsernamePassword) = AuthTypeUsernamePassword →
        ∃ status, Event.WriteUsernamePasswordAuthResponse sampleConn { Status := status } none ∈
          [Event.WriteAuthResponse sampleConn
              { Version := 5, Method := AuthTypeUsernamePassword } none,
            Event.ReadUsernamePasswordAuthRequest sampleConn
              (Except.ok { Username := "user", Password := "secret" }),
            Event.Verify "user" "secret" true,
            Event.WriteUsernamePasswordAuthResponse sampleConn
              { Status := UsernamePasswordStatusSuccess } none,
            Event.ReadRequest sampleConn
              (Except.ok { Version := 5, Command := CommandConnect,
                           Destination := sampleDestination })]) ∧
      ∀ e ∈ [Event.NewConnection sampleContext sampleConn
          { Protocol := "socks", Destination := sampleDestination, Session := [7] } none],
        e.isWriteAuthResponse = false ∧ e.isWriteUsernamePasswordAuthResponse = false :=
  C11_command_response_after_auth_responses (sampleEnv CommandConnect)
    { Version := 5, Methods := [2] } sampleContext sampleConn (some sampleAuthenticator)
    (Addr.ip4 0x0A000001) sampleMetadata _ _
    (Event.WriteResponse sampleConn
      { Version := 5, ReplyCode := ReplyCodeSuccess,
        Bind := { Addr := Addr.ip4 0x0A000001, Fqdn := "", Port := 1080 } } none)
    rfl rfl

/-- C12: the run at an AuthRequest that offers only 0x00 while an authenticator
is configured. It reaches the command exchange, and two AuthResponse messages
have been written to the stream before the CommandResponse: the
no-acceptable-methods one of line 79, and, there being no return after it, the
username/password one of line 87. -/
theorem C12_two_auth_responses_before_command_response :
    (handleConnection (sampleEnv CommandConnect) { Version := 5, Methods := [0] }
        sampleContext sampleConn (some sampleAuthenticator) (Addr.ip4 0x0A000001)
        sampleMetadata).exec.trace =
      [Event.WriteAuthResponse sampleConn { Version := 5, Method := 0xFF } none,
        Event.WriteAuthResponse sampleConn { Version := 5, Method := 0x02 } none,
        Event.ReadUsernamePasswordAuthRequest sampleConn
          (Except.ok { Username := "user", Password := "secret" }),
        Event.Verify "user" "secret" true,
        Event.WriteUsernamePasswordAuthResponse sampleConn { Status := 0 } none,
        Event.ReadRequest sampleConn
          (Except.ok { Version := 5, Command := 1, Destination := sampleDestination }),
        Event.WriteResponse sampleConn
          { Version := 5, ReplyCode := 0,
            Bind := { Addr := Addr.ip4 0x0A000001, Fqdn := "", Port := 1080 } } none,
        Event.NewConnection sampleContext sampleConn
          { Protocol := "socks", Destination := sampleDestination, Session := [7] } none] ∧
    ((handleConnection (sampleEnv CommandConnect) { Version := 5, Methods := [0] }
        sampleContext sampleConn (some sampleAuthenticator) (Addr.ip4 0x0A000001)
        sampleMetadata).exec.trace.filter Event.isWriteAuthResponse).length = 2 :=
  ⟨rfl, rfl⟩

/-- The command exchange writes at most one CommandResponse. -/
theorem commandRun_writeResponse_le_one (env : Env) (ctx : Context) (conn : Conn) (bind : Addr)
    (metadata : Metadata) :
    ((commandRun env ctx conn bind metadata).trace.filter Event.isWriteResponse).length ≤ 1 := by
  simp only [commandRun, dispatchRun, Seg.finish_continue, listenEvent]
  repeat' split
  all_goals simp [Event.isWriteResponse]

/-- The dispatch writes one CommandResponse, unless the relay socket does not
open. -/
theorem dispatchRun_writeResponse_one (env : Env) (ctx : Context) (conn : Conn) (bind : Addr)
    (metadata : Metadata) (request : Request)
    (hopen : request.Command = CommandUDPAssociate → ∃ udpConn, env.listenUDP = Except.ok udpConn) :
    ((dispatchRun env ctx conn bind metadata request).trace.filter
      Event.isWriteResponse).length = 1 := by
  rcases dispatchRun_paths env request with ⟨hc, e, hw⟩ | ⟨hc, hw⟩ | ⟨hc, e, hl⟩ |
    ⟨hc, u, e, hl, hw⟩ | ⟨hc, u, hl, hw⟩ | ⟨h1, h2⟩
  · simp [dispatchRun_connect_unwritten _ _ _ _ _ _ e hc hw, Event.isWriteResponse]
  · simp [dispatchRun_connect_written _ _ _ _ _ _ hc hw, Event.isWriteResponse]
  · obtain ⟨u, hu⟩ := hopen hc
    rw [hu] at hl
    cases hl
  · simp [dispatchRun_associate_unwritten _ _ _ _ _ _ u e hc hl hw, Event.isWriteResponse]
  · simp [dispatchRun_associate_written _ _ _ _ _ _ u hc hl hw, Event.isWriteResponse]
  · simp [dispatchRun_unsupported _ _ _ _ _ _ h1 h2, Event.isWriteResponse]

/-- The negotiation writes no CommandResponse. -/
theorem authSeg_no_writeResponse (env : Env) (authRequest : AuthRequest) (conn : Conn)
    (authenticator : Option Authenticator) :
    (authSeg env authRequest conn authenticator).events.filter Event.isWriteResponse = [] :=
  List.filter_eq_nil_iff.mpr fun e he => by
    simp [(authSeg_events_kinds env authRequest conn authenticator e he).1]

/-- C13, against the claim as stated: when the client closes the stream after
the negotiation, so that the read of the CommandRequest fails, the run of
`HandleConnection` writes no CommandResponse. -/
theorem C13_no_command_response_when_request_read_fails :
    ((HandleConnection
        { sampleEnv CommandConnect with readRequest := Except.error (Error.raw "EOF") }
        sampleContext sampleConn none (Addr.ip4 0x0A000001)
        sampleMetadata).exec.trace.filter Event.isWriteResponse).length ≠ 1 := by
  decide

/-- C13, amended: every run of `HandleConnection` makes at most one
CommandResponse write, and exactly one when the AuthRequest is read, the
negotiation goes through, the CommandRequest is read and, for UDP-ASSOCIATE,
the relay socket opens. -/
theorem C13_at_most_one_command_response (env : Env) (ctx : Context) (conn : Conn)
    (authenticator : Option Authenticator) (bind : Addr) (metadata : Metadata) :
    ((HandleConnection env ctx conn authenticator bind metadata).exec.trace.filter
        Event.isWriteResponse).length ≤ 1 ∧
      ∀ authRequest request, env.readAuthRequest = Except.ok authRequest →
        Negotiates env authRequest authenticator →
        env.readRequest = Except.ok request →
        (request.Command = CommandUDPAssociate →
          ∃ udpConn, env.listenUDP = Except.ok udpConn) →
        ((HandleConnection env ctx conn authenticator bind metadata).exec.trace.filter
          Event.isWriteResponse).length = 1 := by
  rw [HandleConnection_exec]
  constructor
  · unfold connectionRun
    cases hr : env.readAuthRequest with
    | error e => simp [Event.isWriteResponse]
    | ok authRequest =>
      simp only [Seg.finish_continue]
      rcases handshakeRun_cases env authRequest ctx conn authenticator bind metadata with
        ⟨o, _, hrun⟩ | ⟨_, hrun⟩
      · simp [hrun, authSeg_no_writeResponse, Event.isWriteResponse]
      · simpa [hrun, authSeg_no_writeResponse, Event.isWriteResponse] using
          commandRun_writeResponse_le_one env ctx conn bind metadata
  · intro authRequest request hauth hneg hread hopen
    have hstop := authSeg_stop_of_negotiates env authRequest conn authenticator hneg
    simpa [connectionRun, hauth, handshakeRun, Seg.finish, hstop, commandRun, hread,
      authSeg_no_writeResponse, Event.isWriteResponse] using
      dispatchRun_writeResponse_one env ctx conn bind metadata request hopen

theorem C13_witness :
    ((HandleConnection (sampleEnv CommandUDPAssociate) sampleContext sampleConn none
        (Addr.ip4 0x0A000001) sampleMetadata).exec.trace.filter
      Event.isWriteResponse).length = 1 :=
  (C13_at_most_one_command_response (sampleEnv CommandUDPAssociate) sampleContext sampleConn
    none (Addr.ip4 0x0A000001) sampleMetadata).2
    { Version := 5, Methods := [0, 2] }
    { Version := 5, Command := CommandUDPAssociate, Destination := sampleDestination }
    rfl ⟨Or.inl (by decide), rfl, fun h => by cases h⟩ rfl (fun _ => ⟨sampleUDPConn, rfl⟩)

/-! ## Hand-off, release and goroutine -/

/-- The calls of the negotiation, one by one: AuthResponse writes with the
version of the AuthRequest, the credential read, `Verify` (only with an
authenticator), and the UsernamePasswordAuthResponse write. -/
theorem authSeg_events_shape (env : Env) (authRequest : AuthRequest) (conn : Conn)
    (authenticator : Option Authenticator) :
    ∀ e ∈ (authSeg env authRequest conn authenticator).events,
      (∃ method err, e = Event.WriteAuthResponse conn
        { Version := authRequest.Version, Method := method } err) ∨
      e.isReadUsernamePasswordAuthRequest = true ∨
      (e.isVerify = true ∧ authenticator.isSome = true) ∨
      e.isWriteUsernamePasswordAuthResponse = true := by
  simp only [authSeg, rejectSeg, chooseSeg, userPassSeg, Seg.andThen, abortWith]
  repeat' split
  all_goals simp_all [Event.isReadUsernamePasswordAuthRequest, Event.isVerify,
    Event.isWriteUsernamePasswordAuthResponse]

/-- The calls of the negotiation hand nothing to the handler and neither open
nor release a socket. -/
theorem authSeg_events_plain (env : Env) (authRequest : AuthRequest) (conn : Conn)
    (authenticator : Option Authenticator) :
    ∀ e ∈ (authSeg env authRequest conn authenticator).events,
      e.handed = none ∧ e.opened = none ∧ e.isClose = false ∧ e.isNewConnection = false ∧
        e.isHandleError = false := by
  intro e he
  rcases authSeg_events_shape env authRequest conn authenticator e he with
    ⟨m, err, rfl⟩ | h | ⟨h, _⟩ | h
  · exact ⟨rfl, rfl, rfl, rfl, rfl⟩
  all_goals
    cases e <;>
      simp_all [Event.isReadUsernamePasswordAuthRequest, Event.isVerify,
        Event.isWriteUsernamePasswordAuthResponse, Event.handed, Event.opened, Event.isClose,
        Event.isNewConnection, Event.isHandleError]

/-- The command exchange of a run: the read of the CommandRequest fails, or it
is followed by the dispatch. -/
theorem commandRun_cases (env : Env) (ctx : Context) (conn : Conn) (bind : Addr)
    (metadata : Metadata) :
    (∃ e, env.readRequest = Except.error e ∧
      commandRun env ctx conn bind metadata =
        { outcome := Outcome.returned (some (E.Cause e "read socks request"))
          trace := [Event.ReadRequest conn (Except.error e)]
          spawned := [] }) ∨
    (∃ request, env.readRequest = Except.ok request ∧
      commandRun env ctx conn bind metadata =
        { outcome := (dispatchRun env ctx conn bind metadata request).outcome
          trace := Event.ReadRequest conn (Except.ok request) ::
            (dispatchRun env ctx conn bind metadata request).trace
          spawned := (dispatchRun env ctx conn bind metadata request).spawned }) := by
  cases hr : env.readRequest with
  | error e => exact Or.inl ⟨e, rfl, by simp [commandRun, hr]⟩
  | ok request => exact Or.inr ⟨request, rfl, by simp [commandRun, hr, Seg.finish]⟩

/-- Whatever the command exchange hands to the handler is the metadata it was
given with the protocol tag and the destination set. -/
theorem commandRun_handed (env : Env) (ctx : Context) (conn : Conn) (bind : Addr)
    (metadata : Metadata) (e : Event) (received : Metadata)
    (hmem : e ∈ (commandRun env ctx conn bind metadata).trace ++
      (commandRun env ctx conn bind metadata).spawned)
    (hhanded : e.handed = some received) :
    ∃ request, env.readRequest = Except.ok request ∧ received = handedOff metadata request := by
  rcases commandRun_cases env ctx conn bind metadata with ⟨err, _, hrun⟩ | ⟨request, hread, hrun⟩
  · rw [hrun] at hmem
    simp only [List.append_nil, List.mem_singleton] at hmem
    subst hmem
    cases hhanded
  · refine ⟨request, hread, ?_⟩
    rw [hrun] at hmem
    simp only [List.cons_append, List.mem_cons] at hmem
    rcases hmem with rfl | hmem
    · cases hhanded
    · revert hmem
      rcases dispatchRun_paths env request with ⟨hc, w, hw⟩ | ⟨hc, hw⟩ | ⟨hc, w, hl⟩ |
        ⟨hc, u, w, hl, hw⟩ | ⟨hc, u, hl, hw⟩ | ⟨h1, h2⟩
      · rw [dispatchRun_connect_unwritten _ _ _ _ _ _ w hc hw]
        simp only [List.append_nil, List.mem_singleton]
        rintro rfl
        cases hhanded
      · rw [dispatchRun_connect_written _ _ _ _ _ _ hc hw]
        simp only [List.append_nil, List.mem_cons, List.mem_singleton, List.not_mem_nil,
          or_false]
        rintro (rfl | rfl)
        · cases hhanded
        · simpa [Event.handed] using hhanded.symm
      · rw [dispatchRun_associate_unopened _ _ _ _ _ _ w hc hl]
        simp only [List.append_nil, List.mem_singleton]
        rintro rfl
        cases hhanded
      · rw [dispatchRun_associate_unwritten _ _ _ _ _ _ u w hc hl hw]
        simp only [List.append_nil, List.mem_cons, List.mem_singleton, List.not_mem_nil,
          or_false]
        rintro (rfl | rfl | rfl) <;> cases hhanded
      · rw [dispatchRun_associate_written _ _ _ _ _ _ u hc hl hw]
        simp only [associateEvents, List.mem_append, List.mem_cons, List.mem_singleton,
          List.not_mem_nil, or_false]
        rintro ((rfl | rfl | rfl | rfl | rfl) | rfl | hrest)
        · cases hhanded
        · cases hhanded
        · cases hhanded
        · cases hhanded
        · cases hhanded
        · simpa [Event.handed] using hhanded.symm
        · cases hn : env.newPacketConnection with
          | none => simp [hn] at hrest
          | some x =>
            simp only [hn, List.mem_singleton] at hrest
            subst hrest
            cases hhanded
      · rw [dispatchRun_unsupported _ _ _ _ _ _ h1 h2]
        simp only [List.append_nil, List.mem_singleton]
        rintro rfl
        cases hhanded

/-- C14: whatever metadata a run of `handleConnection` hands to the downstream
handler, by `NewConnection` on the CONNECT path or by `NewPacketConnection` in
the goroutine of the UDP-ASSOCIATE path, is the metadata passed to
`handleConnection` with the protocol tag set to "socks" and the destination
set to the requested destination: every other field is unchanged. -/
theorem C14_handoff_changes_protocol_and_destination_only (env : Env)
    (authRequest : AuthRequest) (ctx : Context) (conn : Conn)
    (authenticator : Option Authenticator) (bind : Addr) (metadata : Metadata) (e : Event)
    (received : Metadata)
    (hmem : e ∈ (handleConnection env authRequest ctx conn authenticator bind metadata).exec.trace ++
      (handleConnection env authRequest ctx conn authenticator bind metadata).exec.spawned)
    (hhanded : e.handed = some received) :
    received.Session = metadata.Session ∧
      ∃ request, env.readRequest = Except.ok request ∧
        received = { metadata with Protocol := "socks", Destination := request.Destination } := by
  rw [handleConnection_exec] at hmem
  have hplain := authSeg_events_plain env authRequest conn authenticator
  have hcmd : e ∈ (commandRun env ctx conn bind metadata).trace ++
      (commandRun env ctx conn bind metadata).spawned := by
    rcases handshakeRun_cases env authRequest ctx conn authenticator bind metadata with
      ⟨o, _, hrun⟩ | ⟨_, hrun⟩
    · rw [hrun] at hmem
      simp only [List.append_nil] at hmem
      have := (hplain e hmem).1
      rw [hhanded] at this
      cases this
    · rw [hrun] at hmem
      simp only [List.mem_append] at hmem ⊢
      rcases hmem with (hmem | hmem) | hmem
      · have := (hplain e hmem).1
        rw [hhanded] at this
        cases this
      · exact Or.inl hmem
      · exact Or.inr hmem
  obtain ⟨request, hread, hrec⟩ := commandRun_handed env ctx conn bind metadata e received hcmd
    hhanded
  exact ⟨by rw [hrec]; rfl, request, hread, hrec⟩

theorem C14_witness :
    ({ Protocol := "socks", Destination := sampleDestination, Session := [7] } :
        Metadata).Session = sampleMetadata.Session ∧
      ∃ request, (sampleEnv CommandUDPAssociate).readRequest = Except.ok request ∧
        ({ Protocol := "socks", Destination := sampleDestination, Session := [7] } : Metadata) =
          { sampleMetadata with Protocol := "socks", Destination := request.Destination } :=
  C14_handoff_changes_protocol_and_destination_only (sampleEnv CommandUDPAssociate)
    { Version := 5, Methods := [0] } sampleContext sampleConn none (Addr.ip4 0x0A000001)
    sampleMetadata
    (Event.NewPacketConnection sampleContext
      (NewAssociatePacketConn sampleConn sampleUDPConn sampleDestination)
      { Protocol := "socks", Destination := sampleDestination, Session := [7] } none)
    { Protocol := "socks", Destination := sampleDestination, Session := [7] }
    (by
      have h : (handleConnection (sampleEnv CommandUDPAssociate)
          { Version := 5, Methods := [0] } sampleContext sampleConn none (Addr.ip4 0x0A000001)
          sampleMetadata).exec.spawned =
          [Event.NewPacketConnection sampleContext
            (NewAssociatePacketConn sampleConn sampleUDPConn sampleDestination)
            { Protocol := "socks", Destination := sampleDestination, Session := [7] } none] :=
        rfl
      rw [h]
      simp)
    rfl

/-- The command exchange releases the relay socket it opened once, as its last
call, and returns; it returns the wrapped write error when the CommandResponse
write fails and the result of the drain otherwise. -/
theorem commandRun_opened (env : Env) (ctx : Context) (conn : Conn) (bind : Addr)
    (metadata : Metadata) (e : Event) (udpConn : UDPConn)
    (hmem : e ∈ (commandRun env ctx conn bind metadata).trace)
    (hopened : e.opened = some udpConn) :
    (∃ pre, (commandRun env ctx conn bind metadata).trace = pre ++ [Event.Close udpConn] ∧
      ∀ x ∈ pre, x.isClose = false) ∧
    (∀ w, env.writeResponse = some w →
      (commandRun env ctx conn bind metadata).outcome =
        Outcome.returned (some (E.Cause w "write socks response"))) ∧
    (env.writeResponse = none →
      (commandRun env ctx conn bind metadata).outcome =
        Outcome.returned (common.Error env.copyDiscard)) := by
  rcases commandRun_cases env ctx conn bind metadata with ⟨err, _, hrun⟩ | ⟨request, hread, hrun⟩
  · rw [hrun] at hmem
    simp only [List.mem_singleton] at hmem
    subst hmem
    cases hopened
  · rw [hrun] at hmem ⊢
    simp only [List.mem_cons] at hmem
    rcases hmem with rfl | hmem
    · cases hopened
    · revert hmem
      rcases dispatchRun_paths env request with ⟨hc, w, hw⟩ | ⟨hc, hw⟩ | ⟨hc, w, hl⟩ |
        ⟨hc, u, w, hl, hw⟩ | ⟨hc, u, hl, hw⟩ | ⟨h1, h2⟩
      · rw [dispatchRun_connect_unwritten _ _ _ _ _ _ w hc hw]
        simp only [List.mem_singleton]
        rintro rfl
        cases hopened
      · rw [dispatchRun_connect_written _ _ _ _ _ _ hc hw]
        simp only [List.mem_cons, List.mem_singleton, List.not_mem_nil, or_false]
        rintro (rfl | rfl) <;> cases hopened
      · rw [dispatchRun_associate_unopened _ _ _ _ _ _ w hc hl]
        simp only [List.mem_singleton]
        rintro rfl
        cases hopened
      · rw [dispatchRun_associate_unwritten _ _ _ _ _ _ u w hc hl hw]
        simp only [List.mem_cons, List.mem_singleton, List.not_mem_nil, or_false]
        rintro (rfl | rfl | rfl)
        · simp only [Event.opened, Option.some.injEq] at hopened
          subst hopened
          refine ⟨⟨[Event.ReadRequest conn (Except.ok request),
            Event.ListenUDP (relayNetwork bind) { IP := bind, Port := 0 } (Except.ok u),
            Event.WriteResponse conn
              { Version := request.Version, ReplyCode := ReplyCodeSuccess,
                Bind := env.SocksaddrFromNet u.LocalAddr } (some w)], rfl, ?_⟩, ?_, ?_⟩
          · simp [Event.isClose]
          · intro w' hw'
            rw [hw] at hw'
            cases hw'
            rfl
          · intro hn
            rw [hw] at hn
            cases hn
        · cases hopened
        · cases hopened
      · rw [dispatchRun_associate_written _ _ _ _ _ _ u hc hl hw]
        simp only [List.mem_cons, List.mem_singleton, List.not_mem_nil, or_false]
        rintro (rfl | rfl | rfl | rfl | rfl)
        · simp only [Event.opened, Option.some.injEq] at hopened
          subst hopened
          refine ⟨⟨[Event.ReadRequest conn (Except.ok request),
            Event.ListenUDP (relayNetwork bind) { IP := bind, Port := 0 } (Except.ok u),
            Event.WriteResponse conn
              { Version := request.Version, ReplyCode := ReplyCodeSuccess,
                Bind := env.SocksaddrFromNet u.LocalAddr } none,
            Event.Go, Event.CopyDiscard conn env.copyDiscard], rfl, ?_⟩, ?_, ?_⟩
          · simp [Event.isClose]
          · intro w' hw'
            rw [hw] at hw'
            cases hw'
          · intro _
            rfl
        · cases hopened
        · cases hopened
        · cases hopened
        · cases hopened
      · rw [dispatchRun_unsupported _ _ _ _ _ _ h1 h2]
        simp only [List.mem_singleton]
        rintro rfl
        cases hopened

/-- C15: whenever a run of `handleConnection` opens the relay socket, the run
returns, the release of that socket is its last call and its only release: so
after a failed CommandResponse write, where it returns the wrapped write
error, and after the drain, where it returns what the drain returned, nil for
a normal end and the read error otherwise. -/
theorem C15_relay_socket_released_once_on_return (env : Env) (authRequest : AuthRequest)
    (ctx : Context) (conn : Conn) (authenticator : Option Authenticator) (bind : Addr)
    (metadata : Metadata) (e : Event) (udpConn : UDPConn)
    (hmem : e ∈ (handleConnection env authRequest ctx conn authenticator bind metadata).exec.trace)
    (hopened : e.opened = some udpConn) :
    (∃ pre,
      (handleConnection env authRequest ctx conn authenticator bind metadata).exec.trace =
        pre ++ [Event.Close udpConn] ∧
      ∀ x ∈ pre, x.isClose = false) ∧
    (∀ x ∈ (handleConnection env authRequest ctx conn authenticator bind metadata).exec.spawned,
      x.isClose = false) ∧
    (∀ w, env.writeResponse = some w →
      (handleConnection env authRequest ctx conn authenticator bind metadata).exec.outcome =
        Outcome.returned (some (E.Cause w "write socks response"))) ∧
    (env.writeResponse = none →
      (handleConnection env authRequest ctx conn authenticator bind metadata).exec.outcome =
        Outcome.returned (common.Error env.copyDiscard)) := by
  rw [handleConnection_exec] at hmem ⊢
  have hplain := authSeg_events_plain env authRequest conn authenticator
  rcases handshakeRun_cases env authRequest ctx conn authenticator bind metadata with
    ⟨o, _, hrun⟩ | ⟨_, hrun⟩
  · rw [hrun] at hmem
    have := (hplain e hmem).2.1
    rw [hopened] at this
    cases this
  · rw [hrun] at hmem ⊢
    simp only [List.mem_append] at hmem
    rcases hmem with hmem | hmem
    · have := (hplain e hmem).2.1
      rw [hopened] at this
      cases this
    · obtain ⟨⟨pre, hpre, hclose⟩, hfail, hdrain⟩ :=
        commandRun_opened env ctx conn bind metadata e udpConn hmem hopened
      refine ⟨⟨(authSeg env authRequest conn authenticator).events ++ pre, ?_, ?_⟩, ?_,
        hfail, hdrain⟩
      · simp only [hpre, List.append_assoc]
      · intro x hx
        rcases List.mem_append.mp hx with hx | hx
        · exact (hplain x hx).2.2.1
        · exact hclose x hx
      · intro x hx
        simp only at hx
        rcases commandRun_cases env ctx conn bind metadata with ⟨err, _, hc⟩ |
          ⟨request, hread, hc⟩
        · rw [hc] at hx
          cases hx
        · rw [hc] at hx
          simp only at hx
          rcases dispatchRun_paths env request with ⟨hc, w, hw⟩ | ⟨hc, hw⟩ | ⟨hc, w, hl⟩ |
            ⟨hc, u, w, hl, hw⟩ | ⟨hc, u, hl, hw⟩ | ⟨h1, h2⟩
          · rw [dispatchRun_connect_unwritten _ _ _ _ _ _ w hc hw] at hx
            cases hx
          · rw [dispatchRun_connect_written _ _ _ _ _ _ hc hw] at hx
            cases hx
          · rw [dispatchRun_associate_unopened _ _ _ _ _ _ w hc hl] at hx
            cases hx
          · rw [dispatchRun_associate_unwritten _ _ _ _ _ _ u w hc hl hw] at hx
            cases hx
          · rw [dispatchRun_associate_written _ _ _ _ _ _ u hc hl hw] at hx
            simp only [associateEvents, List.mem_cons] at hx
            rcases hx with rfl | hx
            · rfl
            · cases hn : env.newPacketConnection with
              | none => simp [hn] at hx
              | some y =>
                simp only [hn, List.mem_singleton] at hx
                subst hx
                rfl
          · rw [dispatchRun_unsupported _ _ _ _ _ _ h1 h2] at hx
            cases hx

theorem C15_witness :
    (∃ pre,
      (handleConnection
          { sampleEnv CommandUDPAssociate with writeResponse := some (Error.raw "broken pipe") }
          { Version := 5, Methods := [0] } sampleContext sampleConn none (Addr.ip4 0x0A000001)
          sampleMetadata).exec.trace =
        pre ++ [Event.Close sampleUDPConn] ∧
      ∀ x ∈ pre, x.isClose = false) ∧
    (∀ x ∈ (handleConnection
          { sampleEnv CommandUDPAssociate with writeResponse := some (Error.raw "broken pipe") }
          { Version := 5, Methods := [0] } sampleContext sampleConn none (Addr.ip4 0x0A000001)
          sampleMetadata).exec.spawned,
      x.isClose = false) ∧
    (∀ w, ({ sampleEnv CommandUDPAssociate with
          writeResponse := some (Error.raw "broken pipe") } : Env).writeResponse = some w →
      (handleConnection
          { sampleEnv CommandUDPAssociate with writeResponse := some (Error.raw "broken pipe") }
          { Version := 5, Methods := [0] } sampleContext sampleConn none (Addr.ip4 0x0A000001)
          sampleMetadata).exec.outcome =
        Outcome.returned (some (E.Cause w "write socks response"))) ∧
    (({ sampleEnv CommandUDPAssociate with
          writeResponse := some (Error.raw "broken pipe") } : Env).writeResponse = none →
      (handleConnection
          { sampleEnv CommandUDPAssociate with writeResponse := some (Error.raw "broken pipe") }
          { Version := 5, Methods := [0] } sampleContext sampleConn none (Addr.ip4 0x0A000001)
          sampleMetadata).exec.outcome =
        Outcome.returned (common.Error (0, none))) :=
  C15_relay_socket_released_once_on_return
    { sampleEnv CommandUDPAssociate with writeResponse := some (Error.raw "broken pipe") }
    { Version := 5, Methods := [0] } sampleContext sampleConn none (Addr.ip4 0x0A000001)
    sampleMetadata
    (Event.ListenUDP "udp4" { IP := Addr.ip4 0x0A000001, Port := 0 } (Except.ok sampleUDPConn))
    sampleUDPConn
    (by
      have h : (handleConnection
          { sampleEnv CommandUDPAssociate with writeResponse := some (Error.raw "broken pipe") }
          { Version := 5, Methods := [0] } sampleContext sampleConn none (Addr.ip4 0x0A000001)
          sampleMetadata).exec.trace =
          [Event.WriteAuthResponse sampleConn { Version := 5, Method := 0 } none,
            Event.ReadRequest sampleConn
              (Except.ok { Version := 5, Command := 3, Destination := sampleDestination }),
            Event.ListenUDP "udp4" { IP := Addr.ip4 0x0A000001, Port := 0 }
              (Except.ok sampleUDPConn),
            Event.WriteResponse sampleConn
              { Version := 5, ReplyCode := 0,
                Bind := { Addr := Addr.ip4 0x0A000001, Fqdn := "", Port := 40000 } }
              (some (Error.raw "broken pipe")),
            Event.Close sampleUDPConn] := rfl
      rw [h]
      simp)
    rfl

/-- C16: on the UDP-ASSOCIATE path, whatever the hand-off
`handler.NewPacketConnection` returns in the goroutine, the run of
`handleConnection` makes the same calls and returns the result of the drain of
the controlling stream; an error of the hand-off goes to `handler.HandleError`
in the goroutine, which calls `HandleError` only then, and the function itself
never calls `HandleError`. -/
theorem C16_handoff_error_goes_to_handle_error_only (env : Env) (authRequest : AuthRequest)
    (ctx : Context) (conn : Conn) (authenticator : Option Authenticator) (bind : Addr)
    (metadata : Metadata) (request : Request) (udpConn : UDPConn) (handoff : Option Error)
    (hneg : Negotiates env authRequest authenticator)
    (hread : env.readRequest = Except.ok request)
    (hcommand : request.Command = CommandUDPAssociate)
    (hlisten : env.listenUDP = Except.ok udpConn)
    (hwrite : env.writeResponse = none) :
    (handleConnection { env with newPacketConnection := handoff } authRequest ctx conn
        authenticator bind metadata).exec.outcome =
      Outcome.returned (common.Error env.copyDiscard) ∧
    (handleConnection { env with newPacketConnection := handoff } authRequest ctx conn
        authenticator bind metadata).exec.trace =
      (handleConnection env authRequest ctx conn authenticator bind metadata).exec.trace ∧
    (∀ e ∈ (handleConnection { env with newPacketConnection := handoff } authRequest ctx conn
        authenticator bind metadata).exec.trace, e.isHandleError = false) ∧
    (handleConnection { env with newPacketConnection := handoff } authRequest ctx conn
        authenticator bind metadata).exec.spawned =
      Event.NewPacketConnection ctx (NewAssociatePacketConn conn udpConn request.Destination)
          { metadata with Protocol := "socks", Destination := request.Destination } handoff ::
        (match handoff with
         | some err => [Event.HandleError err]
         | none => []) := by
  have hneg' : Negotiates { env with newPacketConnection := handoff } authRequest
      authenticator := hneg
  have hsame : authSeg { env with newPacketConnection := handoff } authRequest conn
      authenticator = authSeg env authRequest conn authenticator := rfl
  rw [handleConnection_exec_of_request { env with newPacketConnection := handoff } authRequest
      ctx conn authenticator bind metadata request hneg' hread,
    handleConnection_exec_of_request env authRequest ctx conn authenticator bind metadata request
      hneg hread,
    dispatchRun_associate_written { env with newPacketConnection := handoff } ctx conn bind
      metadata request udpConn hcommand hlisten hwrite,
    dispatchRun_associate_written env ctx conn bind metadata request udpConn hcommand hlisten
      hwrite, hsame]
  refine ⟨rfl, rfl, ?_, rfl⟩
  intro e he
  simp only [List.mem_append, List.mem_cons, List.mem_singleton, List.not_mem_nil,
    or_false] at he
  rcases he with he | rfl | rfl | rfl | rfl | rfl | rfl
  · exact (authSeg_events_plain env authRequest conn authenticator e he).2.2.2.2
  all_goals rfl

theorem C16_witness :
    (handleConnection
        { sampleEnv CommandUDPAssociate with
          newPacketConnection := some (Error.raw "upstream unreachable") }
        { Version := 5, Methods := [0] } sampleContext sampleConn none (Addr.ip4 0x0A000001)
        sampleMetadata).exec.outcome =
      Outcome.returned (common.Error (sampleEnv CommandUDPAssociate).copyDiscard) ∧
    (handleConnection
        { sampleEnv CommandUDPAssociate with
          newPacketConnection := some (Error.raw "upstream unreachable") }
        { Version := 5, Methods := [0] } sampleContext sampleConn none (Addr.ip4 0x0A000001)
        sampleMetadata).exec.trace =
      (handleConnection (sampleEnv CommandUDPAssociate) { Version := 5, Methods := [0] }
        sampleContext sampleConn none (Addr.ip4 0x0A000001) sampleMetadata).exec.trace ∧
    (∀ e ∈ (handleConnection
        { sampleEnv CommandUDPAssociate with
          newPacketConnection := some (Error.raw "upstream unreachable") }
        { Version := 5, Methods := [0] } sampleContext sampleConn none (Addr.ip4 0x0A000001)
        sampleMetadata).exec.trace, e.isHandleError = false) ∧
    (handleConnection
        { sampleEnv CommandUDPAssociate with
          newPacketConnection := some (Error.raw "upstream unreachable") }
        { Version := 5, Methods := [0] } sampleContext sampleConn none (Addr.ip4 0x0A000001)
        sampleMetadata).exec.spawned =
      Event.NewPacketConnection sampleContext
          (NewAssociatePacketConn sampleConn sampleUDPConn sampleDestination)
          { sampleMetadata with Protocol := "socks", Destination := sampleDestination }
          (some (Error.raw "upstream unreachable")) ::
        (match some (Error.raw "upstream unreachable") with
         | some err => [Event.HandleError err]
         | none => []) :=
  C16_handoff_error_goes_to_handle_error_only (sampleEnv CommandUDPAssociate)
    { Version := 5, Methods := [0] } sampleContext sampleConn none (Addr.ip4 0x0A000001)
    sampleMetadata
    { Version := 5, Command := CommandUDPAssociate, Destination := sampleDestination }
    sampleUDPConn (some (Error.raw "upstream unreachable"))
    ⟨Or.inl (by decide), rfl, fun h => by cases h⟩ rfl rfl rfl rfl

/-! ## The sub-negotiation, `Verify` and the versions -/

/-- The calls of the command exchange are none of the sub-negotiation, and a
CommandResponse it writes carries the version of the CommandRequest read. -/
theorem commandRun_events_shape (env : Env) (ctx : Context) (conn : Conn) (bind : Addr)
    (metadata : Metadata) :
    ∀ e ∈ (commandRun env ctx conn bind metadata).trace,
      e.isReadUsernamePasswordAuthRequest = false ∧
      ∀ c response err, e = Event.WriteResponse c response err →
        ∃ request, env.readRequest = Except.ok request ∧ response.Version = request.Version := by
  intro e he
  rcases commandRun_cases env ctx conn bind metadata with ⟨err, _, hrun⟩ | ⟨request, hread, hrun⟩
  · rw [hrun] at he
    simp only [List.mem_singleton] at he
    subst he
    exact ⟨rfl, fun c response err h => by cases h⟩
  · rw [hrun] at he
    simp only [List.mem_cons] at he
    rcases he with rfl | he
    · exact ⟨rfl, fun c response err h => by cases h⟩
    · revert he
      rcases dispatchRun_paths env request with ⟨hc, w, hw⟩ | ⟨hc, hw⟩ | ⟨hc, w, hl⟩ |
        ⟨hc, u, w, hl, hw⟩ | ⟨hc, u, hl, hw⟩ | ⟨h1, h2⟩
      · rw [dispatchRun_connect_unwritten _ _ _ _ _ _ w hc hw]
        simp only [List.mem_singleton]
        rintro rfl
        exact ⟨rfl, fun c response err h => ⟨request, hread, by cases h; rfl⟩⟩
      · rw [dispatchRun_connect_written _ _ _ _ _ _ hc hw]
        simp only [List.mem_cons, List.mem_singleton, List.not_mem_nil, or_false]
        rintro (rfl | rfl)
        · exact ⟨rfl, fun c response err h => ⟨request, hread, by cases h; rfl⟩⟩
        · exact ⟨rfl, fun c response err h => by cases h⟩
      · rw [dispatchRun_associate_unopened _ _ _ _ _ _ w hc hl]
        simp only [List.mem_singleton]
        rintro rfl
        exact ⟨rfl, fun c response err h => by cases h⟩
      · rw [dispatchRun_associate_unwritten _ _ _ _ _ _ u w hc hl hw]
        simp only [List.mem_cons, List.mem_singleton, List.not_mem_nil, or_false]
        rintro (rfl | rfl | rfl)
        · exact ⟨rfl, fun c response err h => by cases h⟩
        · exact ⟨rfl, fun c response err h => ⟨request, hread, by cases h; rfl⟩⟩
        · exact ⟨rfl, fun c response err h => by cases h⟩
      · rw [dispatchRun_associate_written _ _ _ _ _ _ u hc hl hw]
        simp only [List.mem_cons, List.mem_singleton, List.not_mem_nil, or_false]
        rintro (rfl | rfl | rfl | rfl | rfl)
        · exact ⟨rfl, fun c response err h => by cases h⟩
        · exact ⟨rfl, fun c response err h => ⟨request, hread, by cases h; rfl⟩⟩
        · exact ⟨rfl, fun c response err h => by cases h⟩
        · exact ⟨rfl, fun c response err h => by cases h⟩
        · exact ⟨rfl, fun c response err h => by cases h⟩
      · rw [dispatchRun_unsupported _ _ _ _ _ _ h1 h2]
        simp only [List.mem_singleton]
        rintro rfl
        exact ⟨rfl, fun c response err h => ⟨request, hread, by cases h; rfl⟩⟩

/-- The trace of a run is made of calls of the negotiation, followed or not by
calls of the command exchange. -/
theorem handshakeRun_trace_mem (env : Env) (authRequest : AuthRequest) (ctx : Context)
    (conn : Conn) (authenticator : Option Authenticator) (bind : Addr) (metadata : Metadata)
    (e : Event)
    (he : e ∈ (handshakeRun env authRequest ctx conn authenticator bind metadata).trace) :
    e ∈ (authSeg env authRequest conn authenticator).events ∨
      e ∈ (commandRun env ctx conn bind metadata).trace := by
  rcases handshakeRun_cases env authRequest ctx conn authenticator bind metadata with
    ⟨o, _, hrun⟩ | ⟨_, hrun⟩
  · rw [hrun] at he
    exact Or.inl he
  · rw [hrun] at he
    exact List.mem_append.mp he

/-- The sub-negotiation without an authenticator: nothing. -/
theorem userPassSeg_none (env : Env) (conn : Conn) :
    userPassSeg env conn none = { events := [], stop := none } := rfl

/-- A call of two joined stretches is a call of one of them. -/
theorem Seg.andThen_events_mem (s₁ s₂ : Seg) (e : Event) (he : e ∈ (s₁.andThen s₂).events) :
    e ∈ s₁.events ∨ e ∈ s₂.events := by
  unfold Seg.andThen at he
  cases hs : s₁.stop with
  | some o =>
    rw [hs] at he
    exact Or.inl he
  | none =>
    rw [hs] at he
    exact List.mem_append.mp he

/-- The no-acceptable-methods stretch holds AuthResponse writes only. -/
theorem rejectSeg_events_auth (env : Env) (authRequest : AuthRequest) (conn : Conn)
    (authenticator : Option Authenticator) :
    ∀ e ∈ (rejectSeg env authRequest conn authenticator).events,
      e.isWriteAuthResponse = true := by
  intro e he
  unfold rejectSeg at he
  split at he
  · cases he
  · simp only [List.mem_singleton] at he
    subst he
    rfl

/-- Without an authenticator the negotiation holds AuthResponse writes only. -/
theorem authSeg_none_events (env : Env) (authRequest : AuthRequest) (conn : Conn) :
    ∀ e ∈ (authSeg env authRequest conn none).events, e.isWriteAuthResponse = true := by
  intro e he
  rcases Seg.andThen_events_mem _ _ e he with he | he
  · exact rejectSeg_events_auth env authRequest conn none e he
  · rcases Seg.andThen_events_mem _ _ e he with he | he
    · simp only [chooseSeg, List.mem_singleton] at he
      subst he
      rfl
    · cases he

/-- C17: whether the username/password sub-negotiation takes place depends
only on whether an authenticator is configured. Without one, no run of
`handleConnection` reads a UsernamePasswordAuthRequest, calls `Verify` or writes
a UsernamePasswordAuthResponse, and the call after the AuthResponse selecting
0x00 is the read of the CommandRequest. With one, the call after the
AuthResponse selecting 0x02 is the read of the UsernamePasswordAuthRequest.
Both hold for every offered method set, the calls before that AuthResponse
being the AuthResponse writes of the rejection, if any. -/
theorem C17_sub_negotiation_depends_on_authenticator_only (env : Env)
    (authRequest : AuthRequest) (ctx : Context) (conn : Conn) (bind : Addr)
    (metadata : Metadata) (hwrite : env.writeAuthResponse = none) :
    (∀ e ∈ (handleConnection env authRequest ctx conn none bind metadata).exec.trace,
      e.isReadUsernamePasswordAuthRequest = false ∧ e.isVerify = false ∧
        e.isWriteUsernamePasswordAuthResponse = false) ∧
    (common.Contains authRequest.Methods AuthTypeNotRequired = true ∨
        env.writeNoAcceptedMethods = none →
      ∃ pre rest,
        (handleConnection env authRequest ctx conn none bind metadata).exec.trace =
          pre ++ Event.WriteAuthResponse conn
              { Version := authRequest.Version, Method := AuthTypeNotRequired } none ::
            Event.ReadRequest conn env.readRequest :: rest ∧
        ∀ e ∈ pre, e.isWriteAuthResponse = true) ∧
    ∀ a : Authenticator,
      common.Contains authRequest.Methods AuthTypeUsernamePassword = true ∨
          env.writeNoAcceptedMethods = none →
        ∃ pre rest,
          (handleConnection env authRequest ctx conn (some a) bind metadata).exec.trace =
            pre ++ Event.WriteAuthResponse conn
                { Version := authRequest.Version, Method := AuthTypeUsernamePassword } none ::
              Event.ReadUsernamePasswordAuthRequest conn
                env.readUsernamePasswordAuthRequest :: rest ∧
          ∀ e ∈ pre, e.isWriteAuthResponse = true := by
  have hrej := rejectSeg_events_auth env authRequest conn
  refine ⟨?_, ?_, ?_⟩
  · intro e he
    rw [handleConnection_exec] at he
    rcases handshakeRun_trace_mem env authRequest ctx conn none bind metadata e he with he | he
    · have hauth := authSeg_none_events env authRequest conn e he
      cases e <;> first | exact ⟨rfl, rfl, rfl⟩ | cases hauth
    · have h1 := commandRun_trace_kinds env ctx conn bind metadata e he
      have h2 := commandRun_events_shape env ctx conn bind metadata e he
      exact ⟨h2.1, h1.2.2, h1.2.1⟩
  · intro hreach
    rw [handleConnection_exec]
    obtain ⟨rest, hrest⟩ := commandRun_trace_cons env ctx conn bind metadata
    refine ⟨(rejectSeg env authRequest conn none).events, rest, ?_, hrej none⟩
    simp [handshakeRun, authSeg_of_written env authRequest conn none hreach hwrite,
      userPassSeg_none, Seg.finish, hrest, requiredMethod_none]
  · intro a hreach
    rw [handleConnection_exec]
    have hseg := authSeg_of_written env authRequest conn (some a) hreach hwrite
    obtain ⟨rest, hrest⟩ : ∃ rest, (userPassSeg env conn (some a)).events =
        Event.ReadUsernamePasswordAuthRequest conn env.readUsernamePasswordAuthRequest ::
          rest := by
      cases hr : env.readUsernamePasswordAuthRequest <;> simp [userPassSeg, hr]
    cases hs : (userPassSeg env conn (some a)).stop with
    | some o =>
      refine ⟨(rejectSeg env authRequest conn (some a)).events, rest, ?_, hrej (some a)⟩
      simp [handshakeRun, hseg, Seg.finish, hs, hrest, requiredMethod_some]
    | none =>
      refine ⟨(rejectSeg env authRequest conn (some a)).events,
        rest ++ (commandRun env ctx conn bind metadata).trace, ?_, hrej (some a)⟩
      simp [handshakeRun, hseg, Seg.finish, hs, hrest, requiredMethod_some]

theorem C17_witness :
    (sampleEnv CommandConnect).writeAuthResponse = none ∧
      ∃ pre rest,
        (handleConnection (sampleEnv CommandConnect) { Version := 5, Methods := [0] }
            sampleContext sampleConn (some sampleAuthenticator) (Addr.ip4 0x0A000001)
            sampleMetadata).exec.trace =
          pre ++ Event.WriteAuthResponse sampleConn
              { Version := 5, Method := AuthTypeUsernamePassword } none ::
            Event.ReadUsernamePasswordAuthRequest sampleConn
              (sampleEnv CommandConnect).readUsernamePasswordAuthRequest :: rest ∧
        ∀ e ∈ pre, e.isWriteAuthResponse = true :=
  ⟨rfl,
    (C17_sub_negotiation_depends_on_authenticator_only (sampleEnv CommandConnect)
      { Version := 5, Methods := [0] } sampleContext sampleConn (Addr.ip4 0x0A000001)
      sampleMetadata rfl).2.2 sampleAuthenticator (Or.inr rfl)⟩

/-- The calls of two joined stretches are among the calls of both. -/
theorem Seg.andThen_events_sublist (s₁ s₂ : Seg) :
    (s₁.andThen s₂).events.Sublist (s₁.events ++ s₂.events) := by
  unfold Seg.andThen
  cases s₁.stop with
  | some o => exact List.sublist_append_left _ _
  | none => exact List.Sublist.refl _

/-- A stretch made of two ends the function the way one of them does. -/
theorem Seg.andThen_stop_some (s₁ s₂ : Seg) (o : Outcome) (h : (s₁.andThen s₂).stop = some o) :
    s₁.stop = some o ∨ s₂.stop = some o := by
  unfold Seg.andThen at h
  cases hs : s₁.stop with
  | some o' =>
    rw [hs] at h
    simp only at h
    exact Or.inl (hs ▸ h)
  | none =>
    rw [hs] at h
    exact Or.inr h

/-- The negotiation ends the function by a return only. -/
theorem authSeg_stop_returned (env : Env) (authRequest : AuthRequest) (conn : Conn)
    (authenticator : Option Authenticator) (o : Outcome)
    (h : (authSeg env authRequest conn authenticator).stop = some o) :
    ∃ err, o = Outcome.returned err := by
  have habort : ∀ (x : Option Error) (message : String), abortWith x message = some o →
      ∃ err, o = Outcome.returned err := by
    intro x message hx
    cases x with
    | none => cases hx
    | some e =>
      simp only [abortWith, Option.map_some', Option.some.injEq] at hx
      exact ⟨_, hx.symm⟩
  rcases Seg.andThen_stop_some _ _ o h with h | h
  · unfold rejectSeg at h
    split at h
    · cases h
    · exact habort _ _ h
  · rcases Seg.andThen_stop_some _ _ o h with h | h
    · exact habort _ _ h
    · cases authenticator with
      | none => cases h
      | some a =>
        unfold userPassSeg at h
        cases hr : env.readUsernamePasswordAuthRequest with
        | error e =>
          simp only [hr, Option.some.injEq] at h
          exact ⟨_, h.symm⟩
        | ok r =>
          simp only [hr] at h
          exact habort _ _ h

/-- The command exchange ends by a return. -/
theorem commandRun_returned (env : Env) (ctx : Context) (conn : Conn) (bind : Addr)
    (metadata : Metadata) :
    ∃ err, (commandRun env ctx conn bind metadata).outcome = Outcome.returned err := by
  rcases commandRun_cases env ctx conn bind metadata with ⟨err, _, hrun⟩ | ⟨request, hread, hrun⟩
  · exact ⟨_, by rw [hrun]⟩
  · rw [hrun]
    rcases dispatchRun_paths env request with ⟨hc, w, hw⟩ | ⟨hc, hw⟩ | ⟨hc, w, hl⟩ |
      ⟨hc, u, w, hl, hw⟩ | ⟨hc, u, hl, hw⟩ | ⟨h1, h2⟩
    · exact ⟨_, by rw [dispatchRun_connect_unwritten _ _ _ _ _ _ w hc hw]⟩
    · exact ⟨_, by rw [dispatchRun_connect_written _ _ _ _ _ _ hc hw]⟩
    · exact ⟨_, by rw [dispatchRun_associate_unopened _ _ _ _ _ _ w hc hl]⟩
    · exact ⟨_, by rw [dispatchRun_associate_unwritten _ _ _ _ _ _ u w hc hl hw]⟩
    · exact ⟨_, by rw [dispatchRun_associate_written _ _ _ _ _ _ u hc hl hw]⟩
    · rw [dispatchRun_unsupported _ _ _ _ _ _ h1 h2]
      cases env.writeResponse with
      | none => exact ⟨none, rfl⟩
      | some e => exact ⟨_, rfl⟩

/-- The negotiation calls `Verify` at most once. -/
theorem authSeg_verify_le_one (env : Env) (authRequest : AuthRequest) (conn : Conn)
    (authenticator : Option Authenticator) :
    ((authSeg env authRequest conn authenticator).events.filter Event.isVerify).length ≤ 1 := by
  have hsub : (authSeg env authRequest conn authenticator).events.Sublist
      ((rejectSeg env authRequest conn authenticator).events ++
        ((chooseSeg env authRequest conn authenticator).events ++
          (userPassSeg env conn authenticator).events)) :=
    (Seg.andThen_events_sublist _ _).trans
      (List.Sublist.append (List.Sublist.refl _) (Seg.andThen_events_sublist _ _))
  refine le_trans (hsub.filter _).length_le ?_
  have hrej : (rejectSeg env authRequest conn authenticator).events.filter Event.isVerify = [] :=
    List.filter_eq_nil_iff.mpr fun e he => by
      simp [(rejectSeg_events_kinds env authRequest conn authenticator e he).2]
  rw [List.filter_append, List.filter_append, hrej]
  cases authenticator with
  | none => simp [chooseSeg, userPassSeg, Event.isVerify]
  | some a =>
    cases hr : env.readUsernamePasswordAuthRequest <;>
      simp [chooseSeg, userPassSeg, hr, Event.isVerify]

/-- C18: no run of `handleConnection` panics: the call of `Verify` on a nil
authenticator is never reached. `Verify` is called at most once in a run, and
a run that calls it has an authenticator, which is exactly when the required
method is username/password. -/
theorem C18_verify_never_called_on_nil_authenticator (env : Env) (authRequest : AuthRequest)
    (ctx : Context) (conn : Conn) (authenticator : Option Authenticator) (bind : Addr)
    (metadata : Metadata) :
    (∃ err, (handleConnection env authRequest ctx conn authenticator bind metadata).exec.outcome =
      Outcome.returned err) ∧
    ((handleConnection env authRequest ctx conn authenticator bind metadata).exec.trace.filter
      Event.isVerify).length ≤ 1 ∧
    ((∃ e ∈ (handleConnection env authRequest ctx conn authenticator bind metadata).exec.trace,
        e.isVerify = true) → authenticator.isSome = true) ∧
    ((if authenticator.isNone then AuthTypeNotRequired else AuthTypeUsernamePassword) =
        AuthTypeUsernamePassword ↔ authenticator.isSome = true) := by
  rw [handleConnection_exec]
  have hcmdv : (commandRun env ctx conn bind metadata).trace.filter Event.isVerify = [] :=
    List.filter_eq_nil_iff.mpr fun e he => by
      simp [(commandRun_trace_kinds env ctx conn bind metadata e he).2.2]
  refine ⟨?_, ?_, ?_, ?_⟩
  · rcases handshakeRun_cases env authRequest ctx conn authenticator bind metadata with
      ⟨o, hstop, hrun⟩ | ⟨_, hrun⟩
    · rw [hrun]
      exact authSeg_stop_returned env authRequest conn authenticator o hstop
    · rw [hrun]
      exact commandRun_returned env ctx conn bind metadata
  · rcases handshakeRun_cases env authRequest ctx conn authenticator bind metadata with
      ⟨o, _, hrun⟩ | ⟨_, hrun⟩
    · rw [hrun]
      exact authSeg_verify_le_one env authRequest conn authenticator
    · rw [hrun]
      simp only [List.filter_append, hcmdv, List.append_nil]
      exact authSeg_verify_le_one env authRequest conn authenticator
  · rintro ⟨e, he, hv⟩
    rcases handshakeRun_trace_mem env authRequest ctx conn authenticator bind metadata e he with
      he | he
    · rcases authSeg_events_shape env authRequest conn authenticator e he with
        ⟨m, err, rfl⟩ | h | ⟨_, h⟩ | h
      · cases hv
      · cases e <;> simp_all [Event.isVerify, Event.isReadUsernamePasswordAuthRequest]
      · exact h
      · cases e <;> simp_all [Event.isVerify, Event.isWriteUsernamePasswordAuthResponse]
    · have := (commandRun_trace_kinds env ctx conn bind metadata e he).2.2
      rw [hv] at this
      cases this
  · cases authenticator with
    | none => decide
    | some a => simp

theorem C18_witness :
    (∃ err, (handleConnection (sampleEnv CommandConnect) { Version := 5, Methods := [2] }
        sampleContext sampleConn none (Addr.ip4 0x0A000001) sampleMetadata).exec.outcome =
      Outcome.returned err) ∧
    ((handleConnection (sampleEnv CommandConnect) { Version := 5, Methods := [2] }
        sampleContext sampleConn none (Addr.ip4 0x0A000001) sampleMetadata).exec.trace.filter
      Event.isVerify).length ≤ 1 ∧
    ((∃ e ∈ (handleConnection (sampleEnv CommandConnect) { Version := 5, Methods := [2] }
        sampleContext sampleConn none (Addr.ip4 0x0A000001) sampleMetadata).exec.trace,
        e.isVerify = true) → (none : Option Authenticator).isSome = true) ∧
    ((if (none : Option Authenticator).isNone then AuthTypeNotRequired
        else AuthTypeUsernamePassword) = AuthTypeUsernamePassword ↔
      (none : Option Authenticator).isSome = true) :=
  C18_verify_never_called_on_nil_authenticator (sampleEnv CommandConnect)
    { Version := 5, Methods := [2] } sampleContext sampleConn none (Addr.ip4 0x0A000001)
    sampleMetadata

/-- C19: on the CONNECT path, when the success CommandResponse is written the
handler's `NewConnection` is called once, as the call right after that write
and the last call of the run, and `handleConnection` returns what it returned,
nil or the handler's error as it is; when the write fails, `NewConnection` is
not called and the wrapped write error is returned. -/
theorem C19_connect_handoff_after_written_response (env : Env) (authRequest : AuthRequest)
    (ctx : Context) (conn : Conn) (authenticator : Option Authenticator) (bind : Addr)
    (metadata : Metadata) (request : Request)
    (hneg : Negotiates env authRequest authenticator)
    (hread : env.readRequest = Except.ok request)
    (hcommand : request.Command = CommandConnect) :
    (env.writeResponse = none →
      (∃ pre handed,
        (handleConnection env authRequest ctx conn authenticator bind metadata).exec.trace =
          pre ++
            [Event.WriteResponse conn
                { Version := request.Version, ReplyCode := ReplyCodeSuccess,
                  Bind := env.SocksaddrFromNet conn.LocalAddr } none,
              Event.NewConnection ctx conn handed env.newConnection] ∧
        ∀ e ∈ pre, e.isNewConnection = false) ∧
      (handleConnection env authRequest ctx conn authenticator bind metadata).exec.outcome =
        Outcome.returned env.newConnection) ∧
    ∀ w, env.writeResponse = some w →
      (∀ e ∈ (handleConnection env authRequest ctx conn authenticator bind metadata).exec.trace,
        e.isNewConnection = false) ∧
      (handleConnection env authRequest ctx conn authenticator bind metadata).exec.outcome =
        Outcome.returned (some (E.Cause w "write socks response")) := by
  rw [handleConnection_exec_of_request env authRequest ctx conn authenticator bind metadata
    request hneg hread]
  have hplain := authSeg_events_plain env authRequest conn authenticator
  constructor
  · intro hw
    rw [dispatchRun_connect_written _ _ _ _ _ _ hcommand hw]
    refine ⟨⟨(authSeg env authRequest conn authenticator).events ++
      [Event.ReadRequest conn (Except.ok request)], handedOff metadata request, by simp, ?_⟩, rfl⟩
    intro e he
    simp only [List.mem_append, List.mem_singleton] at he
    rcases he with he | rfl
    · exact (hplain e he).2.2.2.1
    · rfl
  · intro w hw
    rw [dispatchRun_connect_unwritten _ _ _ _ _ _ w hcommand hw]
    refine ⟨?_, rfl⟩
    intro e he
    simp only [List.mem_append, List.mem_cons, List.mem_singleton, List.not_mem_nil,
      or_false] at he
    rcases he with he | rfl | rfl
    · exact (hplain e he).2.2.2.1
    · rfl
    · rfl

theorem C19_witness :
    (handleConnection
        { sampleEnv CommandConnect with newConnection := some (Error.raw "dial timeout") }
        { Version := 5, Methods := [0] } sampleContext sampleConn none (Addr.ip4 0x0A000001)
        sampleMetadata).exec.outcome =
      Outcome.returned (some (Error.raw "dial timeout")) :=
  ((C19_connect_handoff_after_written_response
    { sampleEnv CommandConnect with newConnection := some (Error.raw "dial timeout") }
    { Version := 5, Methods := [0] } sampleContext sampleConn none (Addr.ip4 0x0A000001)
    sampleMetadata { Version := 5, Command := CommandConnect, Destination := sampleDestination }
    ⟨Or.inl (by decide), rfl, fun h => by cases h⟩ rfl rfl).1 rfl).2

/-- C20: every AuthResponse a run of `handleConnection` writes, the
no-acceptable-methods one included, carries the version of the AuthRequest it
was given, and every CommandResponse it writes, on whichever path, carries the
version of the CommandRequest it read, whatever these versions are. -/
theorem C20_versions_are_echoed (env : Env) (authRequest : AuthRequest) (ctx : Context)
    (conn : Conn) (authenticator : Option Authenticator) (bind : Addr) (metadata : Metadata)
    (e : Event)
    (hmem : e ∈ (handleConnection env authRequest ctx conn authenticator bind metadata).exec.trace) :
    (∀ c response err, e = Event.WriteAuthResponse c response err →
      response.Version = authRequest.Version) ∧
    (∀ c response err, e = Event.WriteResponse c response err →
      ∃ request, env.readRequest = Except.ok request ∧ response.Version = request.Version) := by
  rw [handleConnection_exec] at hmem
  rcases handshakeRun_trace_mem env authRequest ctx conn authenticator bind metadata e hmem with
    he | he
  · rcases authSeg_events_shape env authRequest conn authenticator e he with
      ⟨m, err, rfl⟩ | h | ⟨h, _⟩ | h
    · exact ⟨fun c response err' heq => by cases heq; rfl, fun c response err' heq => by cases heq⟩
    all_goals
      refine ⟨fun c response err' heq => ?_, fun c response err' heq => ?_⟩ <;>
        subst heq <;> cases h
  · refine ⟨fun c response err heq => ?_,
      (commandRun_events_shape env ctx conn bind metadata e he).2⟩
    subst heq
    have := (commandRun_trace_kinds env ctx conn bind metadata _ he).1
    cases this

theorem C20_witness :
    (∀ c response err,
      Event.WriteResponse sampleConn
          { Version := 0xAB, ReplyCode := ReplyCodeUnsupported, Bind := Socksaddr.zeroValue }
          none = Event.WriteAuthResponse c response err →
      response.Version = 4) ∧
    (∀ c response err,
      Event.WriteResponse sampleConn
          { Version := 0xAB, ReplyCode := ReplyCodeUnsupported, Bind := Socksaddr.zeroValue }
          none = Event.WriteResponse c response err →
      ∃ request,
        ({ sampleEnv 9 with
            readRequest := Except.ok { Version := 0xAB, Command := 9,
                                       Destination := sampleDestination } } : Env).readRequest =
          Except.ok request ∧
        response.Version = request.Version) :=
  C20_versions_are_echoed
    { sampleEnv 9 with
      readRequest := Except.ok { Version := 0xAB, Command := 9,
                                 Destination := sampleDestination } }
    { Version := 4, Methods := [0] } sampleContext sampleConn none (Addr.ip4 0x0A000001)
    sampleMetadata
    (Event.WriteResponse sampleConn
      { Version := 0xAB, ReplyCode := ReplyCodeUnsupported, Bind := Socksaddr.zeroValue } none)
    (by
      have h : (handleConnection
          { sampleEnv 9 with
            readRequest := Except.ok { Version := 0xAB, Command := 9,
                                       Destination := sampleDestination } }
          { Version := 4, Methods := [0] } sampleContext sampleConn none (Addr.ip4 0x0A000001)
          sampleMetadata).exec.trace =
          [Event.WriteAuthResponse sampleConn { Version := 4, Method := 0 } none,
            Event.ReadRequest sampleConn
              (Except.ok { Version := 0xAB, Command := 9, Destination := sampleDestination }),
            Event.WriteResponse sampleConn
              { Version := 0xAB, ReplyCode := ReplyCodeUnsupported,
                Bind := Socksaddr.zeroValue } none] := rfl
      rw [h]
      simp)

end Socks5
